import Mathlib

/-!
Verification of the Keychron device-communication core
(`src/main/python/protocol/keychron.py`).

The Python module is a mixin over a report transport `usb_send`.  We embed it
shallowly:

* a response report is a total map from byte index to byte value
  (`Response`), matching the fixed-size (32-byte) HID response buffer;
* the transport is a function `PDev` from the request bytes to
  `Option Response`, where `none` models `usb_send` raising after its retries
  are exhausted (retry plumbing is below this layer and is not modelled);
* the mutable per-connection attributes (`self.keychron_*`) are an explicit
  state record `KState` threaded through each operation;
* every operation additionally returns the list of requests it sent, so that
  round-trip counts and request contents can be stated;
* Python exceptions propagate as `none` in the `Option` monad; the one
  `try/except` block (around the initial protocol-version query in
  `reload_keychron`) is modelled by an explicit `match`.

Byte-level operations are translated to `Nat` arithmetic: `x & 0x3F` on a
byte is `x % 64`, `x >> 2` is `x / 4`, and `|` of bit-disjoint parts is
addition.  `struct.pack` fields are stored as the packed byte values; the
byte-range precondition of `struct.pack` (values must fit the field) appears
as a hypothesis of the theorems that quantify over caller inputs.
-/

namespace Keychron

/-- Byte `i` of a fixed-size response report. -/
abbrev Response := Nat → Nat

/-- A request: the bytes handed to `usb_send`. -/
abbrev Request := List Nat

/-- The report transport: `none` models `usb_send` raising (retries exhausted). -/
abbrev PDev := Request → Option Response

-- Main command IDs (data[0])
def KC_GET_PROTOCOL_VERSION : Nat := 0xA0
def KC_GET_FIRMWARE_VERSION : Nat := 0xA1
def KC_GET_SUPPORT_FEATURE : Nat := 0xA2
def KC_MISC_CMD_GROUP : Nat := 0xA7
def KC_KEYCHRON_RGB : Nat := 0xA8
def KC_ANALOG_MATRIX : Nat := 0xA9

-- Feature flags (byte 0 / byte 1) from KC_GET_SUPPORT_FEATURE
def FEATURE_BLUETOOTH : Nat := 0x02
def FEATURE_P24G : Nat := 0x04
def FEATURE_ANALOG_MATRIX : Nat := 0x08
def FEATURE_DYNAMIC_DEBOUNCE : Nat := 0x20
def FEATURE_SNAP_CLICK : Nat := 0x40
def FEATURE_KEYCHRON_RGB : Nat := 0x80
def FEATURE_NKRO : Nat := 0x0200

-- Misc command group sub-commands (data[1] when data[0] = 0xA7)
def MISC_GET_PROTOCOL_VER : Nat := 0x01
def DEBOUNCE_GET : Nat := 0x05
def DEBOUNCE_SET : Nat := 0x06
def SNAP_CLICK_GET_INFO : Nat := 0x07
def SNAP_CLICK_GET : Nat := 0x08
def SNAP_CLICK_SET : Nat := 0x09
def WIRELESS_LPM_GET : Nat := 0x0B
def WIRELESS_LPM_SET : Nat := 0x0C
def REPORT_RATE_GET : Nat := 0x0D
def REPORT_RATE_SET : Nat := 0x0E
def NKRO_GET : Nat := 0x12
def NKRO_SET : Nat := 0x13

-- Misc feature support flags (from MISC_GET_PROTOCOL_VER)
def MISC_DEBOUNCE : Nat := 0x04
def MISC_SNAP_CLICK : Nat := 0x08
def MISC_WIRELESS_LPM : Nat := 0x10
def MISC_REPORT_RATE : Nat := 0x20
def MISC_NKRO : Nat := 0x80

-- Debounce / report-rate defaults used by _init_keychron_attrs
def DEBOUNCE_SYM_DEFER_GLOBAL : Nat := 0
def REPORT_RATE_1000HZ : Nat := 3

-- RGB sub-commands (data[1] when data[0] = 0xA8)
def RGB_GET_PROTOCOL_VER : Nat := 0x01
def GET_INDICATORS_CONFIG : Nat := 0x03
def SET_INDICATORS_CONFIG : Nat := 0x04
def RGB_GET_LED_COUNT : Nat := 0x05
def RGB_GET_LED_IDX : Nat := 0x06
def PER_KEY_RGB_GET_TYPE : Nat := 0x07
def PER_KEY_RGB_SET_TYPE : Nat := 0x08
def PER_KEY_RGB_GET_COLOR : Nat := 0x09
def PER_KEY_RGB_SET_COLOR : Nat := 0x0A
def MIXED_EFFECT_RGB_GET_INFO : Nat := 0x0B
def MIXED_EFFECT_RGB_GET_REGIONS : Nat := 0x0C
def MIXED_EFFECT_RGB_SET_REGIONS : Nat := 0x0D
def MIXED_EFFECT_RGB_GET_EFFECT_LIST : Nat := 0x0E

def PER_KEY_RGB_SOLID : Nat := 0

-- Analog Matrix sub-commands (data[1] when data[0] = 0xA9)
def AMC_GET_VERSION : Nat := 0x01
def AMC_GET_PROFILES_INFO : Nat := 0x10
def AMC_GET_PROFILE_RAW : Nat := 0x12
def AMC_GET_CURVE : Nat := 0x20
def AMC_GET_GAME_CONTROLLER_MODE : Nat := 0x22

def SOCD_PRI_NONE : Nat := 0

-- Response status codes
def KC_SUCCESS : Nat := 0

/-- A Snap Click entry dict: `{"type": .., "key1": .., "key2": ..}`. -/
structure SnapClickEntry where
  type : Nat
  key1 : Nat
  key2 : Nat
deriving DecidableEq

/-- A Mixed RGB effect dict: `{"effect", "hue", "sat", "speed", "time"}`. -/
structure MixedEffect where
  effect : Nat
  hue : Nat
  sat : Nat
  speed : Nat
  time : Nat
deriving DecidableEq

/-- The decoded `analog_key_config_t` dict returned by
`_parse_analog_key_config`: keys `mode`, `actuation_point`, `sensitivity`,
`release_sensitivity`. -/
structure AnalogKeyConfig where
  mode : Nat
  actuation_point : Nat
  sensitivity : Nat
  release_sensitivity : Nat
deriving DecidableEq

/-- A SOCD pair dict from `get_keychron_analog_socd_pairs`. -/
structure SocdPair where
  type : Nat
  row1 : Nat
  col1 : Nat
  row2 : Nat
  col2 : Nat
deriving DecidableEq

/-- The in-memory mirror: the `self.keychron_*` attributes of the mixin. -/
structure KState where
  keychron_features : Nat
  keychron_misc_features : Nat
  keychron_protocol_version : Nat
  keychron_misc_protocol_version : Nat
  keychron_firmware_version : List Nat
  keychron_debounce_type : Nat
  keychron_debounce_time : Nat
  keychron_nkro_enabled : Bool
  keychron_nkro_supported : Bool
  keychron_nkro_adaptive : Bool
  keychron_report_rate : Nat
  keychron_report_rate_mask : Nat
  keychron_snap_click_count : Nat
  keychron_snap_click_entries : List SnapClickEntry
  keychron_wireless_backlit_time : Nat
  keychron_wireless_idle_time : Nat
  keychron_rgb_protocol_version : Nat
  keychron_led_count : Nat
  keychron_per_key_rgb_type : Nat
  keychron_per_key_colors : List (Nat × Nat × Nat)
  keychron_os_indicator_config : Option (Nat × Nat × Nat × Nat)
  keychron_led_matrix : List ((Nat × Nat) × Nat)
  keychron_mixed_rgb_layers : Nat
  keychron_mixed_rgb_effects_per_layer : Nat
  keychron_mixed_rgb_regions : List Nat
  keychron_mixed_rgb_effects : List (List MixedEffect)
  keychron_analog_version : Nat
  keychron_analog_profile_count : Nat
  keychron_analog_current_profile : Nat
  keychron_analog_profile_size : Nat
  keychron_analog_okmc_count : Nat
  keychron_analog_socd_count : Nat
  keychron_analog_curve : List Nat
  keychron_analog_game_controller_mode : Nat
deriving DecidableEq

/-- `_init_keychron_attrs`: the attribute defaults set at the start of
`reload_keychron`. -/
def init_keychron_attrs : KState where
  keychron_features := 0
  keychron_misc_features := 0
  keychron_protocol_version := 0
  keychron_misc_protocol_version := 0
  keychron_firmware_version := []
  keychron_debounce_type := DEBOUNCE_SYM_DEFER_GLOBAL
  keychron_debounce_time := 5
  keychron_nkro_enabled := false
  keychron_nkro_supported := false
  keychron_nkro_adaptive := false
  keychron_report_rate := REPORT_RATE_1000HZ
  keychron_report_rate_mask := 0x7F
  keychron_snap_click_count := 0
  keychron_snap_click_entries := []
  keychron_wireless_backlit_time := 30
  keychron_wireless_idle_time := 300
  keychron_rgb_protocol_version := 0
  keychron_led_count := 0
  keychron_per_key_rgb_type := PER_KEY_RGB_SOLID
  keychron_per_key_colors := []
  keychron_os_indicator_config := none
  keychron_led_matrix := []
  keychron_mixed_rgb_layers := 0
  keychron_mixed_rgb_effects_per_layer := 0
  keychron_mixed_rgb_regions := []
  keychron_mixed_rgb_effects := []
  keychron_analog_version := 0
  keychron_analog_profile_count := 0
  keychron_analog_current_profile := 0
  keychron_analog_profile_size := 0
  keychron_analog_okmc_count := 0
  keychron_analog_socd_count := 0
  keychron_analog_curve := []
  keychron_analog_game_controller_mode := 0

/-- `_parse_analog_key_config(data)`: decode a 4-byte `analog_key_config_t`.

Bit extraction on bytes: `& 0x03` is `% 4`, `>> 2` is `/ 4`, `& 0x3F` is
`% 64`, `(byte1 >> 6) & 0x03` is `byte1 / 64 % 4` and
`(byte2 & 0x0F) << 2` is `byte2 % 16 * 4`; the `|` of these two bit-disjoint
parts is their sum.  Note the decoder itself substitutes the fixed defaults
`1 / 20 / 3 / 3` for zero fields (the `x if x > 0 else d` expressions in the
returned dict). -/
def parse_analog_key_config (data : List Nat) : AnalogKeyConfig :=
  if data.length < 4 then
    { mode := 1, actuation_point := 20, sensitivity := 3, release_sensitivity := 3 }
  else
    let byte0 := data.getD 0 0
    let byte1 := data.getD 1 0
    let byte2 := data.getD 2 0
    let mode := byte0 % 4
    let act_pt := byte0 / 4 % 64
    let rpd_trig_sen := byte1 % 64
    let rpd_trig_sen_deact := byte1 / 64 % 4 + byte2 % 16 * 4
    { mode := if mode > 0 then mode else 1
      actuation_point := if act_pt > 0 then act_pt else 20
      sensitivity := if rpd_trig_sen > 0 then rpd_trig_sen else 3
      release_sensitivity := if rpd_trig_sen_deact > 0 then rpd_trig_sen_deact else 3 }

/-- The inherit-from-global substitution applied to one parsed per-key config
in `get_keychron_analog_key_configs` (the four `if config[...] == 0` blocks). -/
def inherit_from_global (global_config config : AnalogKeyConfig) : AnalogKeyConfig :=
  { mode := if config.mode = 0 then global_config.mode else config.mode
    actuation_point :=
      if config.actuation_point = 0 then global_config.actuation_point
      else config.actuation_point
    sensitivity :=
      if config.sensitivity = 0 then global_config.sensitivity else config.sensitivity
    release_sensitivity :=
      if config.release_sensitivity = 0 then global_config.release_sensitivity
      else config.release_sensitivity }

/-- Modelled from the spec: the raw bit-level `PackedKeyConfig` record of
§4.3 — fields `mode` (2 bits), `act_pt` (6 bits), `sen` (6 bits),
`deact` (6 bits spanning bytes 1–2), `adv_mode` (4 bits), `adv_data`
(byte 3).  The source contains no such record: `_parse_analog_key_config`
drops `adv_mode`/byte 3 and substitutes defaults for zero fields, and no
encoder exists anywhere in the repository. -/
structure RawKeyConfig where
  mode : Nat
  act_pt : Nat
  sen : Nat
  deact : Nat
  adv_mode : Nat
  adv_data : Nat
deriving DecidableEq

/-- Modelled from the spec: the pure bit-level decoder of §4.3 (mode from
bits 0–1 of byte 0, actuation from bits 2–7 of byte 0, sensitivity from bits
0–5 of byte 1, release sensitivity from bits 6–7 of byte 1 plus bits 0–3 of
byte 2, advance mode from bits 4–7 of byte 2, byte 3 opaque), with no
zero-substitution.  Missing from the source, which only has the substituting
decoder `_parse_analog_key_config`. -/
def raw_decode (b0 b1 b2 b3 : Nat) : RawKeyConfig where
  mode := b0 % 4
  act_pt := b0 / 4 % 64
  sen := b1 % 64
  deact := b1 / 64 % 4 + b2 % 16 * 4
  adv_mode := b2 / 16 % 16
  adv_data := b3

/-- Modelled from the spec: the encoder `encode(PackedKeyConfig) -> bytes4`
of §4.3, the claimed exact inverse of decoding.  Missing from the source:
the repository defines no encoder for this record. -/
def raw_encode (c : RawKeyConfig) : List Nat :=
  [c.mode + c.act_pt * 4,
   c.sen + c.deact % 4 * 64,
   c.deact / 4 + c.adv_mode * 16,
   c.adv_data]

/-- `get_keychron_analog_profile_raw(profile, offset, size)`: one
`AMC_GET_PROFILE_RAW` round-trip.  `size` is capped at 26; the request packs
`offset` as a little-endian 16-bit field (`struct.pack "<BBBBHB"`).  The inner
`Option` is the Python `None` returned on a rejected response; the payload is
`data[6 : 6 + size]`. -/
def get_keychron_analog_profile_raw (dev : PDev) (profile offset size : Nat) :
    Option (Option (List Nat) × List Request) := do
  let size := min size 26
  let req := [KC_ANALOG_MATRIX, AMC_GET_PROFILE_RAW, profile, 0, offset % 256, offset / 256, size]
  let data ← dev req
  if data 0 = KC_ANALOG_MATRIX ∧ data 1 = AMC_GET_PROFILE_RAW ∧ data 2 = KC_SUCCESS then
    some (some ((List.range size).map fun i => data (6 + i)), [req])
  else
    some (none, [req])

/-- The per-key chunk loop of `get_keychron_analog_key_configs`: read
`remaining` bytes in chunks of at most 24 via `get_keychron_analog_profile_raw`,
accumulating into `all_data`; a rejected chunk (`if not chunk`) breaks the
loop, keeping what was read so far. -/
def analog_key_chunks (dev : PDev) (profile offset remaining : Nat) :
    Option (List Nat × List Request) :=
  if _h : remaining = 0 then some ([], [])
  else do
    let chunk_size := min 24 remaining
    let (chunk, log1) ← get_keychron_analog_profile_raw dev profile offset chunk_size
    match chunk with
    | none => some ([], log1)
    | some chunk =>
      if chunk = [] then some ([], log1)
      else do
        let (rest, log2) ← analog_key_chunks dev profile (offset + chunk_size) (remaining - chunk_size)
        some (chunk ++ rest, log1 ++ log2)
termination_by remaining
decreasing_by omega

/-- The nested `for row / for col` loops of `get_keychron_analog_key_configs`.
The running `idx` advances by 4 exactly while the next 4 bytes fit in
`all_data`, so key number `k` (row-major) uses `idx = 4 * k` and falls back to
a copy of the global config once `4 * k + 4` exceeds the data read. -/
def build_key_configs (rows cols : Nat) (all_data : List Nat)
    (global_config : AnalogKeyConfig) : List ((Nat × Nat) × AnalogKeyConfig) :=
  ((List.range rows).map fun row =>
    (List.range cols).map fun col =>
      let idx := (row * cols + col) * 4
      if idx + 4 ≤ all_data.length then
        let key_data := (all_data.drop idx).take 4
        ((row, col), inherit_from_global global_config (parse_analog_key_config key_data))
      else
        ((row, col), global_config)).flatten

/-- `get_keychron_analog_key_configs(profile)`: read the 4-byte global config
at offset 0, then all per-key configs from offset 4 in 24-byte chunks, and
apply the inherit-from-global substitution to each parsed per-key config.
`rows`/`cols` are the keyboard-matrix attributes read via `getattr`. -/
def get_keychron_analog_key_configs (dev : PDev) (rows cols profile : Nat) :
    Option (Option (List ((Nat × Nat) × AnalogKeyConfig)) × List Request) := do
  if rows = 0 ∨ cols = 0 then some (none, [])
  else do
    let (global_data, log0) ← get_keychron_analog_profile_raw dev profile 0 4
    match global_data with
    | none => some (none, log0)
    | some global_data =>
      if global_data.length < 4 then some (none, log0)
      else do
        let global_config := parse_analog_key_config global_data
        let (all_data, log1) ← analog_key_chunks dev profile 4 (rows * cols * 4)
        some (some (build_key_configs rows cols all_data global_config), log0 ++ log1)

/-- The SOCD chunk loop of `get_keychron_analog_socd_pairs`: read the SOCD
section in chunks of at most 25 bytes (5 entries); a rejected chunk breaks
the loop. -/
def socd_chunks (dev : PDev) (profile offset remaining : Nat) :
    Option (List Nat × List Request) :=
  if _h : remaining = 0 then some ([], [])
  else do
    let chunk_size := min 25 remaining
    let (chunk, log1) ← get_keychron_analog_profile_raw dev profile offset chunk_size
    match chunk with
    | none => some ([], log1)
    | some chunk =>
      if chunk = [] then some ([], log1)
      else do
        let (rest, log2) ← socd_chunks dev profile (offset + chunk_size) (remaining - chunk_size)
        some (chunk ++ rest, log1 ++ log2)
termination_by remaining
decreasing_by omega

/-- The parsing `for i in range(socd_count)` loop of
`get_keychron_analog_socd_pairs`: each `socd_config_t` is 5 bytes
`type, row1, col1, row2, col2`; indices past the data read yield a disabled
all-zero entry. -/
def parse_socd_pairs (socd_count : Nat) (all_data : List Nat) : List SocdPair :=
  (List.range socd_count).map fun i =>
    let idx := i * 5
    if idx + 5 ≤ all_data.length then
      { type := all_data.getD idx 0
        row1 := all_data.getD (idx + 1) 0
        col1 := all_data.getD (idx + 2) 0
        row2 := all_data.getD (idx + 3) 0
        col2 := all_data.getD (idx + 4) 0 }
    else
      { type := SOCD_PRI_NONE, row1 := 0, col1 := 0, row2 := 0, col2 := 0 }

/-- `get_keychron_analog_socd_pairs(profile)`: the SOCD section starts at
`global(4) + rows*cols*4 + okmc_count*20`; `socd_count * 5` bytes are read in
25-byte chunks and parsed into pairs. -/
def get_keychron_analog_socd_pairs (dev : PDev) (rows cols : Nat) (s : KState)
    (profile : Nat) : Option (List SocdPair × List Request) := do
  let socd_count := s.keychron_analog_socd_count
  if socd_count = 0 then some ([], [])
  else do
    let okmc_count := s.keychron_analog_okmc_count
    let socd_offset := 4 + rows * cols * 4 + okmc_count * 20
    let (all_data, log) ← socd_chunks dev profile socd_offset (socd_count * 5)
    some (parse_socd_pairs socd_count all_data, log)

/-- A device serving `AMC_GET_PROFILE_RAW` requests from a stored profile
byte image: echoes the two command bytes, reports success, and answers
`data[6 + i] = bytes[offset + i]`. -/
def profile_dev (bytes : List Nat) : PDev := fun req =>
  match req with
  | [a, b, _profile, _r, offLo, offHi, _size] =>
    if a = KC_ANALOG_MATRIX ∧ b = AMC_GET_PROFILE_RAW then
      some fun j =>
        if j = 0 then KC_ANALOG_MATRIX
        else if j = 1 then AMC_GET_PROFILE_RAW
        else if j = 2 then KC_SUCCESS
        else bytes.getD (offLo + offHi * 256 + (j - 6)) 0
    else some fun _ => 0xFF
  | _ => some fun _ => 0xFF

/-- Profile byte image used for the per-key reader examples: a 4-byte global
config `mode=1, act_pt=20, sensitivity=3, release_sensitivity=5`
(bytes `0x51 0x43 0x01 0x00`) followed by one per-key config
`[0x84, 0x03, 0x00, 0x00]`. -/
def example_profile_bytes : List Nat := [0x51, 0x43, 0x01, 0x00, 0x84, 0x03, 0x00, 0x00]

/-- The `while remaining > 0` loop of `get_mixed_rgb_regions`: batches of at
most 29 region bytes per round-trip; a response that does not echo the
command bytes with `KC_SUCCESS` breaks the loop, returning the regions
accumulated so far. -/
def get_mixed_rgb_regions_loop (dev : PDev) (idx remaining : Nat) :
    Option (List Nat × List Request) :=
  if _h : remaining = 0 then some ([], [])
  else do
    let batch := min 29 remaining
    let req := [KC_KEYCHRON_RGB, MIXED_EFFECT_RGB_GET_REGIONS, idx, batch]
    let data ← dev req
    if data 0 = KC_KEYCHRON_RGB ∧ data 1 = MIXED_EFFECT_RGB_GET_REGIONS ∧
        data 2 = KC_SUCCESS then do
      let (rest, log) ← get_mixed_rgb_regions_loop dev (idx + batch) (remaining - batch)
      some ((List.range batch).map (fun i => data (3 + i)) ++ rest, req :: log)
    else
      some ([], [req])
termination_by remaining
decreasing_by omega

/-- `get_mixed_rgb_regions(start, count)`: `count` defaults to
`self.keychron_led_count - start`. -/
def get_mixed_rgb_regions (dev : PDev) (s : KState) (start : Nat)
    (count : Option Nat) : Option (List Nat × List Request) :=
  get_mixed_rgb_regions_loop dev start (count.getD (s.keychron_led_count - start))

/-- The `while offset < len(regions)` loop of `set_mixed_rgb_regions`:
batches of at most 28 region bytes per round-trip; a response that does not
echo the command bytes with `KC_SUCCESS` makes the whole call return
`False` immediately. -/
def set_mixed_rgb_regions_loop (dev : PDev) (idx : Nat) (regions : List Nat) :
    Option (Bool × List Request) :=
  if _h : regions = [] then some (true, [])
  else do
    let batch := min 28 regions.length
    let req := [KC_KEYCHRON_RGB, MIXED_EFFECT_RGB_SET_REGIONS, idx, batch] ++
      regions.take batch
    let data ← dev req
    if ¬ (data 0 = KC_KEYCHRON_RGB ∧ data 1 = MIXED_EFFECT_RGB_SET_REGIONS ∧
        data 2 = KC_SUCCESS) then
      some (false, [req])
    else do
      let (ok, log) ← set_mixed_rgb_regions_loop dev (idx + batch) (regions.drop batch)
      some (ok, req :: log)
termination_by regions.length
decreasing_by
  have : 0 < regions.length := List.length_pos.mpr _h
  simp only [List.length_drop]
  omega

/-- `set_mixed_rgb_regions(start, regions)`. -/
def set_mixed_rgb_regions (dev : PDev) (start : Nat) (regions : List Nat) :
    Option (Bool × List Request) :=
  set_mixed_rgb_regions_loop dev start regions

/-- The `while remaining > 0` loop of `get_mixed_rgb_effect_list`: batches of
at most 3 effects (8 bytes each) per round-trip; a rejected response breaks
the loop, returning the effects accumulated so far.  The 32-bit `time` field
is `struct.unpack_from("<I", ...)`. -/
def get_mixed_rgb_effect_loop (dev : PDev) (region idx remaining : Nat) :
    Option (List MixedEffect × List Request) :=
  if _h : remaining = 0 then some ([], [])
  else do
    let batch := min 3 remaining
    let req := [KC_KEYCHRON_RGB, MIXED_EFFECT_RGB_GET_EFFECT_LIST, region, idx, batch]
    let data ← dev req
    if data 0 = KC_KEYCHRON_RGB ∧ data 1 = MIXED_EFFECT_RGB_GET_EFFECT_LIST ∧
        data 2 = KC_SUCCESS then do
      let effs := (List.range batch).map fun i =>
        let offset := 3 + i * 8
        { effect := data offset
          hue := data (offset + 1)
          sat := data (offset + 2)
          speed := data (offset + 3)
          time := data (offset + 4) ||| data (offset + 5) <<< 8 |||
            data (offset + 6) <<< 16 ||| data (offset + 7) <<< 24 : MixedEffect }
      let (rest, log) ← get_mixed_rgb_effect_loop dev region (idx + batch) (remaining - batch)
      some (effs ++ rest, req :: log)
    else
      some ([], [req])
termination_by remaining
decreasing_by omega

/-- `get_mixed_rgb_effect_list(region, start, count)`: `count` defaults to
`self.keychron_mixed_rgb_effects_per_layer`. -/
def get_mixed_rgb_effect_list (dev : PDev) (s : KState) (region start : Nat)
    (count : Option Nat) : Option (List MixedEffect × List Request) :=
  get_mixed_rgb_effect_loop dev region start
    (count.getD s.keychron_mixed_rgb_effects_per_layer)

/-- The `while idx < self.keychron_snap_click_count` loop of
`_reload_snap_click`: batches of at most 8 three-byte entries; a rejected
batch appends nothing but the loop still advances `idx` and continues with
the next batch. -/
def reload_snap_click_loop (dev : PDev) (total idx : Nat) :
    Option (List SnapClickEntry × List Request) :=
  if _h : idx < total then do
    let count := min 8 (total - idx)
    let req := [KC_MISC_CMD_GROUP, SNAP_CLICK_GET, idx, count]
    let data ← dev req
    let batch :=
      if data 0 = KC_MISC_CMD_GROUP ∧ data 1 = SNAP_CLICK_GET ∧ data 2 = KC_SUCCESS then
        (List.range count).map fun i =>
          let offset := 3 + i * 3
          { type := data offset, key1 := data (offset + 1), key2 := data (offset + 2)
            : SnapClickEntry }
      else []
    let (rest, log) ← reload_snap_click_loop dev total (idx + count)
    some (batch ++ rest, req :: log)
  else some ([], [])
termination_by total - idx
decreasing_by omega

/-- `_reload_snap_click()`: query the entry count with
`SNAP_CLICK_GET_INFO`, reset the mirror's entry list, then read all entries
in batches of 8. -/
def reload_snap_click (dev : PDev) (s : KState) : Option (KState × List Request) := do
  let req := [KC_MISC_CMD_GROUP, SNAP_CLICK_GET_INFO]
  let data ← dev req
  let s :=
    if data 0 = KC_MISC_CMD_GROUP ∧ data 1 = SNAP_CLICK_GET_INFO ∧ data 2 = KC_SUCCESS then
      { s with keychron_snap_click_count := data 3 }
    else s
  let s := { s with keychron_snap_click_entries := [] }
  if s.keychron_snap_click_count > 0 then do
    let (entries, log) ← reload_snap_click_loop dev s.keychron_snap_click_count 0
    some ({ s with keychron_snap_click_entries := entries }, req :: log)
  else
    some (s, [req])

/-- The success response of a device that stores a region list: echoes the
command bytes, reports success, and serves `data[3 + i] = stored[idx + i]`. -/
def region_resp (stored : List Nat) (idx : Nat) : Response := fun j =>
  if j = 0 then KC_KEYCHRON_RGB
  else if j = 1 then MIXED_EFFECT_RGB_GET_REGIONS
  else if j = 2 then KC_SUCCESS
  else stored.getD (idx + (j - 3)) 0

/-- A device that answers every `MIXED_EFFECT_RGB_GET_REGIONS` request
successfully from a stored region list. -/
def region_dev (stored : List Nat) : PDev := fun req =>
  match req with
  | [a, b, i, _c] =>
    if a = KC_KEYCHRON_RGB ∧ b = MIXED_EFFECT_RGB_GET_REGIONS then
      some (region_resp stored i)
    else some fun _ => 0xFF
  | _ => some fun _ => 0xFF

/-- A device whose every response fails to echo the command (leading byte
`0xFF`), i.e. every request is rejected (and, for the version query, the
protocol-absent sentinel). -/
def reject_dev : PDev := fun _ => some fun _ => 0xFF

/-- A device that serves `MIXED_EFFECT_RGB_GET_REGIONS` reads from a stored
list but rejects any request whose batch reaches LED index `limit` or
beyond. -/
def region_dev_upto (stored : List Nat) (limit : Nat) : PDev := fun req =>
  match req with
  | [a, b, i, c] =>
    if a = KC_KEYCHRON_RGB ∧ b = MIXED_EFFECT_RGB_GET_REGIONS ∧ i + c ≤ limit then
      some (region_resp stored i)
    else some fun _ => 0xFF
  | _ => some fun _ => 0xFF

/-- A device for the snap-click scenario: `SNAP_CLICK_GET_INFO` reports 10
entries, the first `SNAP_CLICK_GET` batch (idx 0) succeeds with all entry
bytes 7, and the batch at idx 8 is rejected (leading byte `0xFF`). -/
def snap_dev : PDev := fun req =>
  match req with
  | [a, b] =>
    if a = KC_MISC_CMD_GROUP ∧ b = SNAP_CLICK_GET_INFO then
      some fun j =>
        if j = 0 then KC_MISC_CMD_GROUP
        else if j = 1 then SNAP_CLICK_GET_INFO
        else if j = 2 then KC_SUCCESS
        else if j = 3 then 10 else 0
    else some fun _ => 0xFF
  | [a, b, i, _c] =>
    if a = KC_MISC_CMD_GROUP ∧ b = SNAP_CLICK_GET ∧ i = 0 then
      some fun j =>
        if j = 0 then KC_MISC_CMD_GROUP
        else if j = 1 then SNAP_CLICK_GET
        else if j = 2 then KC_SUCCESS
        else 7
    else some fun _ => 0xFF
  | _ => some fun _ => 0xFF

/-- A device for the skip scenario: `SNAP_CLICK_GET_INFO` reports 10
entries, the batch at idx 0 is rejected, and the batch at idx 8 succeeds
with all entry bytes 9. -/
def snap_dev_skip : PDev := fun req =>
  match req with
  | [a, b] =>
    if a = KC_MISC_CMD_GROUP ∧ b = SNAP_CLICK_GET_INFO then
      some fun j =>
        if j = 0 then KC_MISC_CMD_GROUP
        else if j = 1 then SNAP_CLICK_GET_INFO
        else if j = 2 then KC_SUCCESS
        else if j = 3 then 10 else 0
    else some fun _ => 0xFF
  | [a, b, i, _c] =>
    if a = KC_MISC_CMD_GROUP ∧ b = SNAP_CLICK_GET ∧ i = 8 then
      some fun j =>
        if j = 0 then KC_MISC_CMD_GROUP
        else if j = 1 then SNAP_CLICK_GET
        else if j = 2 then KC_SUCCESS
        else 9
    else some fun _ => 0xFF
  | _ => some fun _ => 0xFF

/-- A mirror state reporting 20 SOCD pairs and no OKMC records, as set up by
`AMC_GET_PROFILES_INFO`. -/
def socd_state : KState :=
  { init_keychron_attrs with keychron_analog_socd_count := 20 }

/-- `has_keychron_debounce()`: primary `FEATURE_DYNAMIC_DEBOUNCE` bit or misc
`MISC_DEBOUNCE` bit. -/
def has_keychron_debounce (s : KState) : Bool :=
  (s.keychron_features &&& FEATURE_DYNAMIC_DEBOUNCE != 0) ||
  (s.keychron_misc_features &&& MISC_DEBOUNCE != 0)

/-- `has_keychron_nkro()`: primary `FEATURE_NKRO` bit or misc `MISC_NKRO` bit. -/
def has_keychron_nkro (s : KState) : Bool :=
  (s.keychron_features &&& FEATURE_NKRO != 0) ||
  (s.keychron_misc_features &&& MISC_NKRO != 0)

/-- `has_keychron_report_rate()`: misc `MISC_REPORT_RATE` bit only. -/
def has_keychron_report_rate (s : KState) : Bool :=
  s.keychron_misc_features &&& MISC_REPORT_RATE != 0

/-- `has_keychron_snap_click()`: primary `FEATURE_SNAP_CLICK` bit or misc
`MISC_SNAP_CLICK` bit. -/
def has_keychron_snap_click (s : KState) : Bool :=
  (s.keychron_features &&& FEATURE_SNAP_CLICK != 0) ||
  (s.keychron_misc_features &&& MISC_SNAP_CLICK != 0)

/-- `has_keychron_wireless()`: primary `FEATURE_BLUETOOTH | FEATURE_P24G`
bits or misc `MISC_WIRELESS_LPM` bit. -/
def has_keychron_wireless (s : KState) : Bool :=
  (s.keychron_features &&& (FEATURE_BLUETOOTH ||| FEATURE_P24G) != 0) ||
  (s.keychron_misc_features &&& MISC_WIRELESS_LPM != 0)

/-- `has_keychron_rgb()`: primary `FEATURE_KEYCHRON_RGB` bit only — no misc
bit is consulted. -/
def has_keychron_rgb (s : KState) : Bool :=
  s.keychron_features &&& FEATURE_KEYCHRON_RGB != 0

/-- `has_keychron_analog()`: returns true unconditionally when the
`DEBUG_FORCE_HE` environment override is set (modelled by the
`debug_force_he` flag), else the primary `FEATURE_ANALOG_MATRIX` bit — no
misc bit is consulted. -/
def has_keychron_analog (debug_force_he : Bool) (s : KState) : Bool :=
  if debug_force_he then true
  else s.keychron_features &&& FEATURE_ANALOG_MATRIX != 0

/-- A mirror state with given primary and misc feature masks (all other
attributes at their `_init_keychron_attrs` defaults). -/
def flags_state (f m : Nat) : KState :=
  { init_keychron_attrs with keychron_features := f, keychron_misc_features := m }

/-- The response-acceptance check every misc/RGB/analog operation performs:
both command bytes echoed and status byte `KC_SUCCESS`. -/
abbrev accepted (r : Response) (cmd sub : Nat) : Prop :=
  r 0 = cmd ∧ r 1 = sub ∧ r 2 = KC_SUCCESS

/-- `set_keychron_debounce(debounce_type, debounce_time)`. -/
def set_keychron_debounce (dev : PDev) (s : KState) (debounce_type debounce_time : Nat) :
    Option (KState × Bool × List Request) := do
  let req := [KC_MISC_CMD_GROUP, DEBOUNCE_SET, debounce_type, debounce_time]
  let data ← dev req
  if data 0 = KC_MISC_CMD_GROUP ∧ data 1 = DEBOUNCE_SET ∧ data 2 = KC_SUCCESS then
    some ({ s with keychron_debounce_type := debounce_type,
                   keychron_debounce_time := debounce_time }, true, [req])
  else
    some (s, false, [req])

/-- `set_keychron_nkro(enabled)`: sends `1 if enabled else 0`. -/
def set_keychron_nkro (dev : PDev) (s : KState) (enabled : Bool) :
    Option (KState × Bool × List Request) := do
  let req := [KC_MISC_CMD_GROUP, NKRO_SET, if enabled then 1 else 0]
  let data ← dev req
  if data 0 = KC_MISC_CMD_GROUP ∧ data 1 = NKRO_SET ∧ data 2 = KC_SUCCESS then
    some ({ s with keychron_nkro_enabled := enabled }, true, [req])
  else
    some (s, false, [req])

/-- `set_keychron_report_rate(rate)`. -/
def set_keychron_report_rate (dev : PDev) (s : KState) (rate : Nat) :
    Option (KState × Bool × List Request) := do
  let req := [KC_MISC_CMD_GROUP, REPORT_RATE_SET, rate]
  let data ← dev req
  if data 0 = KC_MISC_CMD_GROUP ∧ data 1 = REPORT_RATE_SET ∧ data 2 = KC_SUCCESS then
    some ({ s with keychron_report_rate := rate }, true, [req])
  else
    some (s, false, [req])

/-- `set_keychron_per_key_rgb_type(rgb_type)`. -/
def set_keychron_per_key_rgb_type (dev : PDev) (s : KState) (rgb_type : Nat) :
    Option (KState × Bool × List Request) := do
  let req := [KC_KEYCHRON_RGB, PER_KEY_RGB_SET_TYPE, rgb_type]
  let data ← dev req
  if data 0 = KC_KEYCHRON_RGB ∧ data 1 = PER_KEY_RGB_SET_TYPE ∧ data 2 = KC_SUCCESS then
    some ({ s with keychron_per_key_rgb_type := rgb_type }, true, [req])
  else
    some (s, false, [req])

/-- `set_keychron_per_key_color(index, h, s, v)`: on success the mirror slot
is updated only under the guard `index < len(self.keychron_per_key_colors)`;
the call still returns `True` when the index is out of range. -/
def set_keychron_per_key_color (dev : PDev) (s : KState) (index hue sat val : Nat) :
    Option (KState × Bool × List Request) := do
  let req := [KC_KEYCHRON_RGB, PER_KEY_RGB_SET_COLOR, index, 1, hue, sat, val]
  let data ← dev req
  if data 0 = KC_KEYCHRON_RGB ∧ data 1 = PER_KEY_RGB_SET_COLOR ∧ data 2 = KC_SUCCESS then
    let s :=
      if index < s.keychron_per_key_colors.length then
        { s with keychron_per_key_colors :=
                   s.keychron_per_key_colors.set index (hue, sat, val) }
      else s
    some (s, true, [req])
  else
    some (s, false, [req])

/-- `set_keychron_snap_click(index, snap_type, key1, key2)`: same guarded
mirror update as the per-key color writer. -/
def set_keychron_snap_click (dev : PDev) (s : KState) (index snap_type key1 key2 : Nat) :
    Option (KState × Bool × List Request) := do
  let req := [KC_MISC_CMD_GROUP, SNAP_CLICK_SET, index, 1, snap_type, key1, key2]
  let data ← dev req
  if data 0 = KC_MISC_CMD_GROUP ∧ data 1 = SNAP_CLICK_SET ∧ data 2 = KC_SUCCESS then
    let s :=
      if index < s.keychron_snap_click_entries.length then
        { s with keychron_snap_click_entries :=
                   s.keychron_snap_click_entries.set index
                     { type := snap_type, key1 := key1, key2 := key2 } }
      else s
    some (s, true, [req])
  else
    some (s, false, [req])

/-- `set_keychron_wireless_lpm(backlit_time, idle_time)`: the arguments are
clamped to the minimums 5 and 60 before packing (`struct.pack "<BBHH"`, the
two 16-bit fields little-endian), and on success the clamped values — not
the caller's — are stored in the mirror. -/
def set_keychron_wireless_lpm (dev : PDev) (s : KState) (backlit_time idle_time : Nat) :
    Option (KState × Bool × List Request) := do
  let backlit_time := max 5 backlit_time
  let idle_time := max 60 idle_time
  let req := [KC_MISC_CMD_GROUP, WIRELESS_LPM_SET, backlit_time % 256, backlit_time / 256,
    idle_time % 256, idle_time / 256]
  let data ← dev req
  if data 0 = KC_MISC_CMD_GROUP ∧ data 1 = WIRELESS_LPM_SET ∧ data 2 = KC_SUCCESS then
    some ({ s with keychron_wireless_backlit_time := backlit_time,
                   keychron_wireless_idle_time := idle_time }, true, [req])
  else
    some (s, false, [req])

/-- A device that echoes the first two request bytes and answers status
`KC_SUCCESS` for every request. -/
def ok_dev : PDev := fun req =>
  some fun j => if j = 2 then KC_SUCCESS else req.getD j 0

/-- `_reload_debounce()`. -/
def reload_debounce (dev : PDev) (s : KState) : Option (KState × List Request) := do
  let req := [KC_MISC_CMD_GROUP, DEBOUNCE_GET]
  let data ← dev req
  if data 0 = KC_MISC_CMD_GROUP ∧ data 1 = DEBOUNCE_GET ∧ data 2 = KC_SUCCESS then
    some ({ s with keychron_debounce_type := data 4,
                   keychron_debounce_time := data 5 }, [req])
  else some (s, [req])

/-- `_reload_nkro()`: the flag byte `data[3]` packs enabled (bit 0),
supported (bit 1) and adaptive (bit 2). -/
def reload_nkro (dev : PDev) (s : KState) : Option (KState × List Request) := do
  let req := [KC_MISC_CMD_GROUP, NKRO_GET]
  let data ← dev req
  if data 0 = KC_MISC_CMD_GROUP ∧ data 1 = NKRO_GET ∧ data 2 = KC_SUCCESS then
    let flags := data 3
    some ({ s with keychron_nkro_enabled := flags &&& 0x01 != 0,
                   keychron_nkro_supported := flags &&& 0x02 != 0,
                   keychron_nkro_adaptive := flags &&& 0x04 != 0 }, [req])
  else some (s, [req])

/-- `_reload_report_rate()`: `data[4]` always exists in the fixed-size
report, so the `len(data) > 4` guard always takes the first branch. -/
def reload_report_rate (dev : PDev) (s : KState) : Option (KState × List Request) := do
  let req := [KC_MISC_CMD_GROUP, REPORT_RATE_GET]
  let data ← dev req
  if data 0 = KC_MISC_CMD_GROUP ∧ data 1 = REPORT_RATE_GET ∧ data 2 = KC_SUCCESS then
    some ({ s with keychron_report_rate := data 3,
                   keychron_report_rate_mask := data 4 }, [req])
  else some (s, [req])

/-- `_reload_wireless_lpm()`: two little-endian 16-bit fields. -/
def reload_wireless_lpm (dev : PDev) (s : KState) : Option (KState × List Request) := do
  let req := [KC_MISC_CMD_GROUP, WIRELESS_LPM_GET]
  let data ← dev req
  if data 0 = KC_MISC_CMD_GROUP ∧ data 1 = WIRELESS_LPM_GET ∧ data 2 = KC_SUCCESS then
    some ({ s with keychron_wireless_backlit_time := data 3 ||| data 4 <<< 8,
                   keychron_wireless_idle_time := data 5 ||| data 6 <<< 8 }, [req])
  else some (s, [req])

/-- The per-key color loop of `_reload_keychron_rgb`: batches of at most 9
three-byte HSV records; a rejected batch appends nothing but the loop still
advances and continues. -/
def per_key_colors_loop (dev : PDev) (total idx : Nat) :
    Option (List (Nat × Nat × Nat) × List Request) :=
  if _h : idx < total then do
    let count := min 9 (total - idx)
    let req := [KC_KEYCHRON_RGB, PER_KEY_RGB_GET_COLOR, idx, count]
    let data ← dev req
    let batch :=
      if data 0 = KC_KEYCHRON_RGB ∧ data 1 = PER_KEY_RGB_GET_COLOR ∧ data 2 = KC_SUCCESS then
        (List.range count).map fun i =>
          let offset := 3 + i * 3
          (data offset, data (offset + 1), data (offset + 2))
      else []
    let (rest, log) ← per_key_colors_loop dev total (idx + count)
    some (batch ++ rest, req :: log)
  else some ([], [])
termination_by total - idx
decreasing_by omega

/-- `get_led_indices_for_row(row, col_mask)`: the 24-bit column mask is
packed little-endian over three bytes plus a padding byte; on success the
24 LED indices start at `data[3]`, on rejection the Python returns `None`. -/
def get_led_indices_for_row (dev : PDev) (row col_mask : Nat) :
    Option (Option (List Nat) × List Request) := do
  let req := [KC_KEYCHRON_RGB, RGB_GET_LED_IDX, row, col_mask % 256,
    col_mask / 256 % 256, col_mask / 65536 % 256, 0]
  let data ← dev req
  if data 0 = KC_KEYCHRON_RGB ∧ data 1 = RGB_GET_LED_IDX ∧ data 2 = KC_SUCCESS then
    some (some ((List.range 24).map fun i => data (3 + i)), [req])
  else
    some (none, [req])

/-- The per-row loop of `reload_led_matrix_mapping`: for each row query all
columns (`col_mask = (1 << cols) - 1`) and record every `(row, col)` whose
LED index is not `0xFF`; a `None` (or empty) result contributes nothing. -/
def led_matrix_rows (dev : PDev) (cols : Nat) :
    List Nat → Option (List ((Nat × Nat) × Nat) × List Request)
  | [] => some ([], [])
  | row :: rest => do
    let col_mask := 2 ^ cols - 1
    let (led_indices, log1) ← get_led_indices_for_row dev row col_mask
    let entries :=
      match led_indices with
      | none => []
      | some led_indices =>
        if led_indices = [] then []
        else
          (List.range (min cols led_indices.length)).filterMap fun col =>
            let led_idx := led_indices.getD col 0
            if led_idx ≠ 0xFF then some ((row, col), led_idx) else none
    let (others, log2) ← led_matrix_rows dev cols rest
    some (entries ++ others, log1 ++ log2)

/-- `reload_led_matrix_mapping()`: a no-op without the RGB capability;
otherwise rebuild `keychron_led_matrix` from per-row queries. -/
def reload_led_matrix_mapping (dev : PDev) (rows cols : Nat) (s : KState) :
    Option (KState × List Request) :=
  if has_keychron_rgb s = false then some (s, [])
  else do
    let (entries, log) ← led_matrix_rows dev cols (List.range rows)
    some ({ s with keychron_led_matrix := entries }, log)

/-- The `for region in range(self.keychron_mixed_rgb_layers)` loop of
`_reload_keychron_rgb`: one `get_mixed_rgb_effect_list` per region. -/
def mixed_rgb_effects_regions (dev : PDev) (s : KState) :
    List Nat → Option (List (List MixedEffect) × List Request)
  | [] => some ([], [])
  | region :: rest => do
    let (effects, log1) ← get_mixed_rgb_effect_list dev s region 0 none
    let (others, log2) ← mixed_rgb_effects_regions dev s rest
    some (effects :: others, log1 ++ log2)

/-- `_reload_keychron_rgb()`: RGB protocol version, LED count, per-key type,
OS indicator config, the per-key color loop, Mixed RGB info, regions and
per-region effect lists (only when layers and LEDs are present), and the LED
matrix mapping. -/
def reload_keychron_rgb (dev : PDev) (rows cols : Nat) (s : KState) :
    Option (KState × List Request) := do
  let req0 := [KC_KEYCHRON_RGB, RGB_GET_PROTOCOL_VER]
  let data ← dev req0
  let s :=
    if data 0 = KC_KEYCHRON_RGB ∧ data 1 = RGB_GET_PROTOCOL_VER then
      { s with keychron_rgb_protocol_version := data 3 ||| data 4 <<< 8 }
    else s
  let req1 := [KC_KEYCHRON_RGB, RGB_GET_LED_COUNT]
  let data ← dev req1
  let s :=
    if data 0 = KC_KEYCHRON_RGB ∧ data 1 = RGB_GET_LED_COUNT ∧ data 2 = KC_SUCCESS then
      { s with keychron_led_count := data 3 }
    else s
  let req2 := [KC_KEYCHRON_RGB, PER_KEY_RGB_GET_TYPE]
  let data ← dev req2
  let s :=
    if data 0 = KC_KEYCHRON_RGB ∧ data 1 = PER_KEY_RGB_GET_TYPE ∧ data 2 = KC_SUCCESS then
      { s with keychron_per_key_rgb_type := data 3 }
    else s
  let req3 := [KC_KEYCHRON_RGB, GET_INDICATORS_CONFIG]
  let data ← dev req3
  let s :=
    if data 0 = KC_KEYCHRON_RGB ∧ data 1 = GET_INDICATORS_CONFIG ∧ data 2 = KC_SUCCESS then
      { s with keychron_os_indicator_config := some (data 3, data 4, data 5, data 6) }
    else s
  let s := { s with keychron_per_key_colors := [] }
  let (s, logc) ←
    if s.keychron_led_count > 0 then do
      let (colors, logc) ← per_key_colors_loop dev s.keychron_led_count 0
      some ({ s with keychron_per_key_colors := colors }, logc)
    else some (s, ([] : List Request))
  let req4 := [KC_KEYCHRON_RGB, MIXED_EFFECT_RGB_GET_INFO]
  let data ← dev req4
  let s :=
    if data 0 = KC_KEYCHRON_RGB ∧ data 1 = MIXED_EFFECT_RGB_GET_INFO ∧ data 2 = KC_SUCCESS then
      { s with keychron_mixed_rgb_layers := data 3,
               keychron_mixed_rgb_effects_per_layer := data 4 }
    else s
  let (s, logm) ←
    if s.keychron_mixed_rgb_layers > 0 ∧ s.keychron_led_count > 0 then do
      let (regions, logr) ← get_mixed_rgb_regions dev s 0 none
      let s := { s with keychron_mixed_rgb_regions := regions }
      let (effects, loge) ←
        mixed_rgb_effects_regions dev s (List.range s.keychron_mixed_rgb_layers)
      some ({ s with keychron_mixed_rgb_effects := effects }, logr ++ loge)
    else some (s, ([] : List Request))
  let (s, logl) ← reload_led_matrix_mapping dev rows cols s
  some (s, [req0, req1, req2, req3] ++ logc ++ [req4] ++ logm ++ logl)

/-- `_reload_analog_matrix()`: analog protocol version (32-bit
little-endian), profiles info, joystick curve (four 16-bit points) and the
game-controller mode. -/
def reload_analog_matrix (dev : PDev) (s : KState) : Option (KState × List Request) := do
  let req0 := [KC_ANALOG_MATRIX, AMC_GET_VERSION]
  let data ← dev req0
  let s :=
    if data 0 = KC_ANALOG_MATRIX ∧ data 1 = AMC_GET_VERSION then
      { s with keychron_analog_version :=
                 data 2 ||| data 3 <<< 8 ||| data 4 <<< 16 ||| data 5 <<< 24 }
    else s
  let req1 := [KC_ANALOG_MATRIX, AMC_GET_PROFILES_INFO]
  let data ← dev req1
  let s :=
    if data 0 = KC_ANALOG_MATRIX ∧ data 1 = AMC_GET_PROFILES_INFO then
      { s with keychron_analog_current_profile := data 2,
               keychron_analog_profile_count := data 3,
               keychron_analog_profile_size := data 4 ||| data 5 <<< 8,
               keychron_analog_okmc_count := data 6,
               keychron_analog_socd_count := data 7 }
    else s
  let req2 := [KC_ANALOG_MATRIX, AMC_GET_CURVE]
  let data ← dev req2
  let s :=
    if data 0 = KC_ANALOG_MATRIX ∧ data 1 = AMC_GET_CURVE ∧ data 2 = KC_SUCCESS then
      { s with keychron_analog_curve :=
                 (List.range 4).map fun i => data (3 + i * 2) ||| data (4 + i * 2) <<< 8 }
    else s
  let req3 := [KC_ANALOG_MATRIX, AMC_GET_GAME_CONTROLLER_MODE]
  let data ← dev req3
  let s :=
    if data 0 = KC_ANALOG_MATRIX ∧ data 1 = AMC_GET_GAME_CONTROLLER_MODE ∧
        data 2 = KC_SUCCESS then
      { s with keychron_analog_game_controller_mode := data 3 }
    else s
  some (s, [req0, req1, req2, req3])

/-- `reload_keychron()`: initialize the attributes, probe the protocol
version (the one query wrapped in `try/except`: a transport exception is
swallowed and, like the `0xFF` sentinel, yields the empty feature mask and
an immediate return), then query features, firmware version and the misc
protocol version, and run each capability-gated reader.  `rows`/`cols` are
the keyboard-matrix attributes and `debug_force_he` the `DEBUG_FORCE_HE`
environment override consulted by `has_keychron_analog`. -/
def reload_keychron (debug_force_he : Bool) (rows cols : Nat) (dev : PDev) :
    Option (KState × List Request) :=
  let s := init_keychron_attrs
  let req0 := [KC_GET_PROTOCOL_VERSION]
  match dev req0 with
  | none => some ({ s with keychron_features := 0 }, [req0])
  | some data =>
    if data 0 = 0xFF then
      some ({ s with keychron_features := 0 }, [req0])
    else
      let s := { s with keychron_protocol_version := data 1 }
      (do
      let req1 := [KC_GET_SUPPORT_FEATURE]
      let data ← dev req1
      if data 0 ≠ 0xFF then do
        let s := { s with keychron_features := data 2 ||| data 3 <<< 8 }
        let req2 := [KC_GET_FIRMWARE_VERSION]
        let data2 ← dev req2
        let s :=
          if data2 0 ≠ 0xFF then
            { s with keychron_firmware_version :=
                       ((List.range 31).map fun i => data2 (1 + i)).takeWhile
                         fun b => b != 0 }
          else s
        let req3 := [KC_MISC_CMD_GROUP, MISC_GET_PROTOCOL_VER]
        let data3 ← dev req3
        let s :=
          if data3 0 = KC_MISC_CMD_GROUP ∧ data3 1 = MISC_GET_PROTOCOL_VER then
            { s with keychron_misc_protocol_version := data3 3 ||| data3 4 <<< 8,
                     keychron_misc_features := data3 5 ||| data3 6 <<< 8 }
          else s
        let (s, ld) ←
          if has_keychron_debounce s then reload_debounce dev s
          else some (s, ([] : List Request))
        let (s, ln) ←
          if has_keychron_nkro s then reload_nkro dev s
          else some (s, ([] : List Request))
        let (s, lr) ←
          if has_keychron_report_rate s then reload_report_rate dev s
          else some (s, ([] : List Request))
        let (s, lsc) ←
          if has_keychron_snap_click s then reload_snap_click dev s
          else some (s, ([] : List Request))
        let (s, lw) ←
          if has_keychron_wireless s then reload_wireless_lpm dev s
          else some (s, ([] : List Request))
        let (s, lrgb) ←
          if has_keychron_rgb s then reload_keychron_rgb dev rows cols s
          else some (s, ([] : List Request))
        let (s, la) ←
          if has_keychron_analog debug_force_he s then reload_analog_matrix dev s
          else some (s, ([] : List Request))
        some (s, [req0, req1, req2, req3] ++ ld ++ ln ++ lr ++ lsc ++ lw ++ lrgb ++ la)
      else
        some ({ s with keychron_features := 0 }, [req0, req1]))

/-- A device that answers the protocol-version query but raises on every
other request (transport retries exhausted there). -/
def half_dev : PDev := fun req =>
  if req = [KC_GET_PROTOCOL_VERSION] then some fun _ => 0 else none

/-- A device on which every `usb_send` raises (transport retries always
exhausted). -/
def dead_dev : PDev := fun _ => none

/-- C2 counterexample: no encoder can be the exact inverse of the source
decoder.  `_parse_analog_key_config` maps the two distinct 4-byte inputs
`[0x00,0x00,0x00,0x00]` and `[0x51,0xC3,0x00,0x00]` to the same dict
(zero fields are collapsed onto the defaults `1/20/3/3`), so no function
`encode` satisfies `encode(decode(x)) = x` for all 4-byte `x`. -/
theorem no_exact_inverse_of_parse :
    ¬ ∃ f : AnalogKeyConfig → List Nat,
      ∀ x : List Nat, x.length = 4 → f (parse_analog_key_config x) = x := by
  rintro ⟨f, hf⟩
  have h1 := hf [0x00, 0x00, 0x00, 0x00] (by decide)
  have h2 := hf [0x51, 0xC3, 0x00, 0x00] (by decide)
  have heq : parse_analog_key_config [0x00, 0x00, 0x00, 0x00] =
      parse_analog_key_config [0x51, 0xC3, 0x00, 0x00] := by decide
  rw [heq] at h1
  rw [h1] at h2
  exact absurd h2 (by decide)

/-- C2 amended: the source has only the (non-injective, default-substituting)
decoder, so no bit-for-bit inverse exists for it; the spec's raw bit-level
codec, modelled from §4.3, does round-trip: encoding the decoded fields
reproduces all four bytes, including the release-sensitivity field crossing
the byte-1/byte-2 boundary and the untouched byte 3. -/
theorem raw_codec_roundtrip (b0 b1 b2 b3 : Nat)
    (h0 : b0 < 256) (h1 : b1 < 256) (h2 : b2 < 256) (h3 : b3 < 256) :
    raw_encode (raw_decode b0 b1 b2 b3) = [b0, b1, b2, b3] := by
  simp only [raw_encode, raw_decode]
  simp only [List.cons.injEq, and_true]
  omega

/-- C2 witness: the raw round-trip at the concrete bytes `0x84 0x03 0x00 0x2A`. -/
theorem raw_codec_roundtrip_witness :
    raw_encode (raw_decode 0x84 0x03 0x00 0x2A) = [0x84, 0x03, 0x00, 0x2A] :=
  raw_codec_roundtrip 0x84 0x03 0x00 0x2A (by decide) (by decide) (by decide) (by decide)

/-- C3 counterexample: the raw codec does not preserve zero fields — decoding
`[0x84, 0x03, 0x00, 0x00]` yields `mode=1` and `release_sensitivity=3`
(defaults substituted inside `_parse_analog_key_config`), not the claimed
`mode=0`/`release_sensitivity=0`; and for a profile whose global config has
`release_sensitivity=5`, the resolved per-key config keeps the codec default 3
instead of the global 5 the claim requires. -/
theorem parse_substitutes_defaults_counterexample :
    parse_analog_key_config [0x84, 0x03, 0x00, 0x00] ≠
      { mode := 0, actuation_point := 33, sensitivity := 3, release_sensitivity := 0 } ∧
    parse_analog_key_config [0x51, 0x43, 0x01, 0x00] =
      { mode := 1, actuation_point := 20, sensitivity := 3, release_sensitivity := 5 } ∧
    (get_keychron_analog_key_configs (profile_dev example_profile_bytes) 1 1 0).map
        (fun p => p.1) =
      some (some [((0, 0),
        { mode := 1, actuation_point := 33, sensitivity := 3, release_sensitivity := 3 })]) ∧
    (3 : Nat) ≠ 5 := by
  refine ⟨by decide, by decide, ?_, by decide⟩
  simp [get_keychron_analog_key_configs, get_keychron_analog_profile_raw,
    analog_key_chunks, profile_dev, build_key_configs, parse_analog_key_config,
    inherit_from_global, example_profile_bytes, KC_ANALOG_MATRIX, AMC_GET_PROFILE_RAW,
    KC_SUCCESS, show List.range 1 = [0] from rfl]

/-- C3 amended: decoding `[0x84, 0x03, 0x00, 0x00]` yields
`mode=1, actuation_point=33, sensitivity=3, release_sensitivity=3` — the
zero-means-inherit substitution happens inside the codec itself with the
fixed defaults `1/20/3/3`, not one layer above with the profile-global
values; consequently no field of any decoded config is ever 0, the per-key
reader's inherit-from-global substitution never fires, and the resolved
per-key config for these bytes is the same for every global config. -/
theorem parse_resolution_amended :
    parse_analog_key_config [0x84, 0x03, 0x00, 0x00] =
      { mode := 1, actuation_point := 33, sensitivity := 3, release_sensitivity := 3 } ∧
    (∀ data : List Nat,
      (parse_analog_key_config data).mode ≠ 0 ∧
      (parse_analog_key_config data).actuation_point ≠ 0 ∧
      (parse_analog_key_config data).sensitivity ≠ 0 ∧
      (parse_analog_key_config data).release_sensitivity ≠ 0) ∧
    (∀ g : AnalogKeyConfig, ∀ data : List Nat,
      inherit_from_global g (parse_analog_key_config data) =
        parse_analog_key_config data) := by
  have hnz : ∀ data : List Nat,
      (parse_analog_key_config data).mode ≠ 0 ∧
      (parse_analog_key_config data).actuation_point ≠ 0 ∧
      (parse_analog_key_config data).sensitivity ≠ 0 ∧
      (parse_analog_key_config data).release_sensitivity ≠ 0 := by
    intro data
    simp only [parse_analog_key_config]
    split
    · simp
    · refine ⟨?_, ?_, ?_, ?_⟩ <;> simp <;> split <;> omega
  refine ⟨by decide, hnz, ?_⟩
  intro g data
  obtain ⟨h1, h2, h3, h4⟩ := hnz data
  simp [inherit_from_global, h1, h2, h3, h4]

/-- C4 counterexample: the decoder does not return the raw bit extractions on
every input — on `[0x00, 0x00, 0x00, 0x00]` the extracted fields are all 0
but the decoder returns the defaults `1/20/3/3`. -/
theorem parse_not_raw_extraction_counterexample :
    parse_analog_key_config [0x00, 0x00, 0x00, 0x00] =
      { mode := 1, actuation_point := 20, sensitivity := 3, release_sensitivity := 3 } ∧
    (parse_analog_key_config [0x00, 0x00, 0x00, 0x00]).mode ≠ 0 % 4 ∧
    (parse_analog_key_config [0x00, 0x00, 0x00, 0x00]).release_sensitivity ≠
      0 / 64 % 4 + 0 % 16 * 4 := by
  refine ⟨by decide, by decide, by decide⟩

/-- C4 amended: the decoder extracts mode from bits 0–1 of byte 0, actuation
from bits 2–7 of byte 0, sensitivity from bits 0–5 of byte 1 and release
sensitivity as `((byte1 >> 6) & 3) | ((byte2 & 0x0F) << 2)`, and returns
exactly those values whenever each is nonzero; a zero extraction is replaced
by the fixed default (mode 1, actuation 20, sensitivity 3, release 3). -/
theorem parse_extracts_bit_fields (b0 b1 b2 b3 : Nat) :
    (b0 % 4 ≠ 0 → b0 / 4 % 64 ≠ 0 → b1 % 64 ≠ 0 → b1 / 64 % 4 + b2 % 16 * 4 ≠ 0 →
      parse_analog_key_config [b0, b1, b2, b3] =
        { mode := b0 % 4, actuation_point := b0 / 4 % 64, sensitivity := b1 % 64,
          release_sensitivity := b1 / 64 % 4 + b2 % 16 * 4 }) ∧
    (b0 % 4 = 0 → (parse_analog_key_config [b0, b1, b2, b3]).mode = 1) ∧
    (b0 / 4 % 64 = 0 → (parse_analog_key_config [b0, b1, b2, b3]).actuation_point = 20) ∧
    (b1 % 64 = 0 → (parse_analog_key_config [b0, b1, b2, b3]).sensitivity = 3) ∧
    (b1 / 64 % 4 + b2 % 16 * 4 = 0 →
      (parse_analog_key_config [b0, b1, b2, b3]).release_sensitivity = 3) := by
  have hnot : ¬ ([b0, b1, b2, b3].length < 4) := by simp
  refine ⟨fun h1 h2 h3 h4 => ?_, fun h => ?_, fun h => ?_, fun h => ?_, fun h => ?_⟩ <;>
      simp only [parse_analog_key_config] <;> rw [if_neg hnot] <;>
      simp only [List.getD_cons_zero, List.getD_cons_succ]
  · simp only [AnalogKeyConfig.mk.injEq]
    refine ⟨?_, ?_, ?_, ?_⟩ <;> split <;> omega
  · show (if b0 % 4 > 0 then b0 % 4 else 1) = 1
    simp [h]
  · show (if b0 / 4 % 64 > 0 then b0 / 4 % 64 else 20) = 20
    simp [h]
  · show (if b1 % 64 > 0 then b1 % 64 else 3) = 3
    simp [h]
  · show (if b1 / 64 % 4 + b2 % 16 * 4 > 0 then b1 / 64 % 4 + b2 % 16 * 4 else 3) = 3
    simp [h]

/-- C4 witness: the nonzero-fields case at `[0x87, 0x43, 0x01, 0x07]`
(mode 3, actuation 33, sensitivity 3, release 5). -/
theorem parse_extracts_bit_fields_witness :
    parse_analog_key_config [0x87, 0x43, 0x01, 0x07] =
      { mode := 3, actuation_point := 33, sensitivity := 3, release_sensitivity := 5 } :=
  (parse_extracts_bit_fields 0x87 0x43 0x01 0x07).1
    (by decide) (by decide) (by decide) (by decide)

theorem region_resp_payload (stored : List Nat) (idx i : Nat) :
    region_resp stored idx (3 + i) = stored.getD (idx + i) 0 := by
  simp only [region_resp]
  rw [if_neg (by omega), if_neg (by omega), if_neg (by omega)]
  have h : 3 + i - 3 = i := by omega
  rw [h]

/-- Closed form of the `get_mixed_rgb_regions` transfer loop against a fully
successful device: reading `N ≥ 1` regions from index `start` issues exactly
`⌈N / 29⌉` round-trips, the `k`-th at start index `start + 29 * k` with batch
size `min 29 (N - 29 * k)`, and returns the stored regions in original index
order. -/
theorem regions_loop_on_stored (stored : List Nat) :
    ∀ N start : Nat, 1 ≤ N →
      get_mixed_rgb_regions_loop (region_dev stored) start N =
        some ((List.range N).map (fun i => stored.getD (start + i) 0),
          (List.range ((N + 28) / 29)).map fun k =>
            [KC_KEYCHRON_RGB, MIXED_EFFECT_RGB_GET_REGIONS, start + 29 * k,
              min 29 (N - 29 * k)]) := by
  intro N
  induction N using Nat.strong_induction_on with
  | _ N ih =>
    intro start hN
    rw [get_mixed_rgb_regions_loop.eq_def, dif_neg (by omega : ¬ N = 0)]
    dsimp only
    have hdev : region_dev stored
        [KC_KEYCHRON_RGB, MIXED_EFFECT_RGB_GET_REGIONS, start, min 29 N] =
        some (region_resp stored start) := by
      simp [region_dev]
    rw [hdev]
    simp only [Option.bind_eq_bind, Option.some_bind]
    rw [if_pos ⟨rfl, rfl, rfl⟩]
    by_cases hle : N ≤ 29
    · have hbatch : min 29 N = N := Nat.min_eq_right hle
      rw [hbatch, Nat.sub_self,
        get_mixed_rgb_regions_loop.eq_def, dif_pos rfl]
      simp only [Option.bind_eq_bind, Option.some_bind, List.append_nil]
      have hdiv : (N + 28) / 29 = 1 := by omega
      rw [hdiv]
      refine congrArg some (Prod.ext ?_ ?_)
      · dsimp only
        exact List.map_congr_left fun i _ => region_resp_payload stored start i
      · dsimp only
        show _ = [[KC_KEYCHRON_RGB, MIXED_EFFECT_RGB_GET_REGIONS, start + 29 * 0,
          min 29 (N - 29 * 0)]]
        simp [hbatch]
    · have hbatch : min 29 N = 29 := Nat.min_eq_left (by omega)
      rw [hbatch, ih (N - 29) (by omega) (start + 29) (by omega)]
      simp only [Option.bind_eq_bind, Option.some_bind]
      refine congrArg some (Prod.ext ?_ ?_)
      · dsimp only
        show (List.range 29).map (fun i => region_resp stored start (3 + i)) ++
            (List.range (N - 29)).map (fun i => stored.getD (start + 29 + i) 0) =
          (List.range N).map fun i => stored.getD (start + i) 0
        rw [List.map_congr_left fun i _ => region_resp_payload stored start i]
        conv_rhs => rw [show N = 29 + (N - 29) by omega]
        rw [List.range_add, List.map_append, List.map_map]
        refine congrArg _ (List.map_congr_left fun a _ => ?_)
        show stored.getD (start + 29 + a) 0 = stored.getD (start + (29 + a)) 0
        rw [show start + 29 + a = start + (29 + a) by omega]
      · dsimp only
        show _ = (List.range ((N + 28) / 29)).map fun k =>
          [KC_KEYCHRON_RGB, MIXED_EFFECT_RGB_GET_REGIONS, start + 29 * k,
            min 29 (N - 29 * k)]
        have hdiv : (N + 28) / 29 = (N - 29 + 28) / 29 + 1 := by omega
        rw [hdiv, List.range_succ_eq_map, List.map_cons, List.map_map]
        refine List.cons_eq_cons.mpr ⟨?_, ?_⟩
        · simp only [Nat.mul_zero, Nat.add_zero, Nat.sub_zero, hbatch]
        · refine List.map_congr_left fun a _ => ?_
          show [KC_KEYCHRON_RGB, MIXED_EFFECT_RGB_GET_REGIONS, start + 29 + 29 * a,
              min 29 (N - 29 - 29 * a)] =
            [KC_KEYCHRON_RGB, MIXED_EFFECT_RGB_GET_REGIONS, start + 29 * (a + 1),
              min 29 (N - 29 * (a + 1))]
          have h1 : start + 29 + 29 * a = start + 29 * (a + 1) := by ring
          have h2 : N - 29 - 29 * a = N - 29 * (a + 1) := by omega
          rw [h1, h2]

/-- Against a device that starts rejecting at LED index `start + 29 * j`, the
`get_mixed_rgb_regions` loop asked for `N > 29 * j` regions stops at the
first rejected round-trip but still returns the `29 * j` regions read so far
— a partial prefix, not a failure. -/
theorem regions_loop_partial (stored : List Nat) :
    ∀ j N start : Nat, 29 * j < N →
      get_mixed_rgb_regions_loop (region_dev_upto stored (start + 29 * j)) start N =
        some ((List.range (29 * j)).map (fun i => stored.getD (start + i) 0),
          (List.range (j + 1)).map fun k =>
            [KC_KEYCHRON_RGB, MIXED_EFFECT_RGB_GET_REGIONS, start + 29 * k,
              min 29 (N - 29 * k)]) := by
  intro j
  induction j with
  | zero =>
    intro N start hN
    rw [get_mixed_rgb_regions_loop.eq_def, dif_neg (by omega : ¬ N = 0)]
    dsimp only
    have hdev : region_dev_upto stored (start + 29 * 0)
        [KC_KEYCHRON_RGB, MIXED_EFFECT_RGB_GET_REGIONS, start, min 29 N] =
        some fun _ => 0xFF := by
      simp only [region_dev_upto]
      split_ifs with h
      · rcases h with ⟨-, -, hc⟩
        omega
      · rfl
    rw [hdev]
    simp only [Option.bind_eq_bind, Option.some_bind]
    rw [if_neg (by decide)]
    simp [show List.range 1 = [0] from rfl]
  | succ j ihj =>
    intro N start hN
    rw [get_mixed_rgb_regions_loop.eq_def, dif_neg (by omega : ¬ N = 0)]
    dsimp only
    have hbatch : min 29 N = 29 := Nat.min_eq_left (by omega)
    rw [hbatch]
    have hdev : region_dev_upto stored (start + 29 * (j + 1))
        [KC_KEYCHRON_RGB, MIXED_EFFECT_RGB_GET_REGIONS, start, 29] =
        some (region_resp stored start) := by
      simp only [region_dev_upto]
      split_ifs with h
      · rfl
      · exact absurd ⟨by trivial, by trivial, by omega⟩ h
    rw [hdev]
    simp only [Option.bind_eq_bind, Option.some_bind]
    rw [if_pos ⟨rfl, rfl, rfl⟩]
    rw [show start + 29 * (j + 1) = start + 29 + 29 * j from by ring]
    rw [ihj (N - 29) (start + 29) (by omega)]
    simp only [Option.bind_eq_bind, Option.some_bind]
    refine congrArg some (Prod.ext ?_ ?_)
    · dsimp only
      rw [List.map_congr_left fun i _ => region_resp_payload stored start i]
      conv_rhs => rw [show 29 * (j + 1) = 29 + 29 * j from by ring]
      rw [List.range_add, List.map_append, List.map_map]
      refine congrArg _ (List.map_congr_left fun a _ => ?_)
      show stored.getD (start + 29 + a) 0 = stored.getD (start + (29 + a)) 0
      rw [show start + 29 + a = start + (29 + a) from by omega]
    · dsimp only
      show _ = (List.range (j + 1 + 1)).map fun k =>
        [KC_KEYCHRON_RGB, MIXED_EFFECT_RGB_GET_REGIONS, start + 29 * k,
          min 29 (N - 29 * k)]
      conv_rhs => rw [List.range_succ_eq_map, List.map_cons, List.map_map]
      refine List.cons_eq_cons.mpr ⟨?_, ?_⟩
      · simp only [Nat.mul_zero, Nat.add_zero, Nat.sub_zero, hbatch]
      · refine List.map_congr_left fun a _ => ?_
        show [KC_KEYCHRON_RGB, MIXED_EFFECT_RGB_GET_REGIONS, start + 29 + 29 * a,
            min 29 (N - 29 - 29 * a)] =
          [KC_KEYCHRON_RGB, MIXED_EFFECT_RGB_GET_REGIONS, start + 29 * (a + 1),
            min 29 (N - 29 * (a + 1))]
        have h1 : start + 29 + 29 * a = start + 29 * (a + 1) := by ring
        have h2 : N - 29 - 29 * a = N - 29 * (a + 1) := by omega
        rw [h1, h2]

theorem snap_loop_at_10 : reload_snap_click_loop snap_dev 10 10 = some ([], []) := by
  rw [reload_snap_click_loop.eq_def]
  simp

theorem snap_loop_at_8 : reload_snap_click_loop snap_dev 10 8 =
    some ([], [[KC_MISC_CMD_GROUP, SNAP_CLICK_GET, 8, 2]]) := by
  rw [reload_snap_click_loop.eq_def]
  simp [snap_dev, snap_loop_at_10, KC_MISC_CMD_GROUP, SNAP_CLICK_GET]

theorem snap_loop_at_0 : reload_snap_click_loop snap_dev 10 0 =
    some ([⟨7, 7, 7⟩, ⟨7, 7, 7⟩, ⟨7, 7, 7⟩, ⟨7, 7, 7⟩,
           ⟨7, 7, 7⟩, ⟨7, 7, 7⟩, ⟨7, 7, 7⟩, ⟨7, 7, 7⟩],
      [[KC_MISC_CMD_GROUP, SNAP_CLICK_GET, 0, 8],
       [KC_MISC_CMD_GROUP, SNAP_CLICK_GET, 8, 2]]) := by
  rw [reload_snap_click_loop.eq_def]
  simp [snap_dev, snap_loop_at_8, KC_MISC_CMD_GROUP, SNAP_CLICK_GET, KC_SUCCESS,
    List.range_succ]

theorem snap_skip_loop_at_10 : reload_snap_click_loop snap_dev_skip 10 10 = some ([], []) := by
  rw [reload_snap_click_loop.eq_def]
  simp

theorem snap_skip_loop_at_8 : reload_snap_click_loop snap_dev_skip 10 8 =
    some ([⟨9, 9, 9⟩, ⟨9, 9, 9⟩], [[KC_MISC_CMD_GROUP, SNAP_CLICK_GET, 8, 2]]) := by
  rw [reload_snap_click_loop.eq_def]
  simp [snap_dev_skip, snap_skip_loop_at_10, KC_MISC_CMD_GROUP, SNAP_CLICK_GET,
    KC_SUCCESS, List.range_succ]

theorem snap_skip_loop_at_0 : reload_snap_click_loop snap_dev_skip 10 0 =
    some ([⟨9, 9, 9⟩, ⟨9, 9, 9⟩],
      [[KC_MISC_CMD_GROUP, SNAP_CLICK_GET, 0, 8],
       [KC_MISC_CMD_GROUP, SNAP_CLICK_GET, 8, 2]]) := by
  rw [reload_snap_click_loop.eq_def]
  simp [snap_dev_skip, snap_skip_loop_at_8, KC_MISC_CMD_GROUP, SNAP_CLICK_GET]

/-- C1 counterexample: against `snap_dev` the second snap-click batch is
rejected, yet `_reload_snap_click` neither fails nor leaves the mirror
unchanged — it stores the 8 entries of the first batch, so the caller
observes a half-updated list. -/
theorem snap_click_partial_mirror_counterexample :
    reload_snap_click snap_dev init_keychron_attrs =
      some ({ init_keychron_attrs with
          keychron_snap_click_count := 10,
          keychron_snap_click_entries :=
            [⟨7, 7, 7⟩, ⟨7, 7, 7⟩, ⟨7, 7, 7⟩, ⟨7, 7, 7⟩,
             ⟨7, 7, 7⟩, ⟨7, 7, 7⟩, ⟨7, 7, 7⟩, ⟨7, 7, 7⟩] },
        [[KC_MISC_CMD_GROUP, SNAP_CLICK_GET_INFO],
         [KC_MISC_CMD_GROUP, SNAP_CLICK_GET, 0, 8],
         [KC_MISC_CMD_GROUP, SNAP_CLICK_GET, 8, 2]]) ∧
    init_keychron_attrs.keychron_snap_click_entries = [] ∧
    (snap_dev [KC_MISC_CMD_GROUP, SNAP_CLICK_GET, 8, 2]).map (fun r => r 0) =
      some 0xFF := by
  refine ⟨?_, rfl, by decide⟩
  simp [reload_snap_click, snap_dev, snap_loop_at_0, KC_MISC_CMD_GROUP,
    SNAP_CLICK_GET_INFO, KC_SUCCESS]

/-- C1 amended: a rejected round-trip aborts a paginated *write*
(`set_mixed_rgb_regions` returns `False` at once, and it never touches the
mirror), but a rejected round-trip of a paginated *read* does not produce a
failure: `get_mixed_rgb_regions` stops and returns the partial prefix read
before the rejection, and `_reload_snap_click` skips the rejected batch,
continues, and leaves a partially updated entry list in the mirror. -/
theorem paginated_failure_semantics_amended :
    (∀ (dev : PDev) (idx : Nat) (regions : List Nat) (r : Response),
      regions ≠ [] →
      dev ([KC_KEYCHRON_RGB, MIXED_EFFECT_RGB_SET_REGIONS, idx, min 28 regions.length] ++
          regions.take (min 28 regions.length)) = some r →
      ¬ (r 0 = KC_KEYCHRON_RGB ∧ r 1 = MIXED_EFFECT_RGB_SET_REGIONS ∧ r 2 = KC_SUCCESS) →
      set_mixed_rgb_regions dev idx regions =
        some (false, [[KC_KEYCHRON_RGB, MIXED_EFFECT_RGB_SET_REGIONS, idx,
            min 28 regions.length] ++ regions.take (min 28 regions.length)])) ∧
    (∀ (stored : List Nat) (j N start : Nat), 29 * j < N →
      get_mixed_rgb_regions_loop (region_dev_upto stored (start + 29 * j)) start N =
        some ((List.range (29 * j)).map (fun i => stored.getD (start + i) 0),
          (List.range (j + 1)).map fun k =>
            [KC_KEYCHRON_RGB, MIXED_EFFECT_RGB_GET_REGIONS, start + 29 * k,
              min 29 (N - 29 * k)])) ∧
    reload_snap_click snap_dev_skip init_keychron_attrs =
      some ({ init_keychron_attrs with
          keychron_snap_click_count := 10,
          keychron_snap_click_entries := [⟨9, 9, 9⟩, ⟨9, 9, 9⟩] },
        [[KC_MISC_CMD_GROUP, SNAP_CLICK_GET_INFO],
         [KC_MISC_CMD_GROUP, SNAP_CLICK_GET, 0, 8],
         [KC_MISC_CMD_GROUP, SNAP_CLICK_GET, 8, 2]]) := by
  refine ⟨?_, fun stored j N start h => regions_loop_partial stored j N start h, ?_⟩
  · intro dev idx regions r hne hdev hrej
    rw [set_mixed_rgb_regions, set_mixed_rgb_regions_loop.eq_def, dif_neg hne]
    dsimp only
    rw [hdev]
    simp only [Option.bind_eq_bind, Option.some_bind]
    rw [if_pos hrej]
  · simp [reload_snap_click, snap_dev_skip, snap_skip_loop_at_0, KC_MISC_CMD_GROUP,
      SNAP_CLICK_GET_INFO, KC_SUCCESS]

/-- C1 witness: the write abort and the partial read at concrete inputs — a
rejected first round-trip makes `set_mixed_rgb_regions` return `False`, and
a 35-region read whose second round-trip is rejected returns the 29-region
prefix. -/
theorem paginated_failure_semantics_witness :
    set_mixed_rgb_regions reject_dev 0 [1, 2, 3] =
      some (false, [[KC_KEYCHRON_RGB, MIXED_EFFECT_RGB_SET_REGIONS, 0,
        min 28 [1, 2, 3].length] ++ [1, 2, 3].take (min 28 [1, 2, 3].length)]) ∧
    get_mixed_rgb_regions_loop (region_dev_upto (List.range 60) (0 + 29 * 1)) 0 35 =
      some ((List.range (29 * 1)).map (fun i => (List.range 60).getD (0 + i) 0),
        (List.range (1 + 1)).map fun k =>
          [KC_KEYCHRON_RGB, MIXED_EFFECT_RGB_GET_REGIONS, 0 + 29 * k,
            min 29 (35 - 29 * k)]) :=
  ⟨paginated_failure_semantics_amended.1 reject_dev 0 [1, 2, 3] (fun _ => 0xFF)
      (by decide) rfl (by decide),
    paginated_failure_semantics_amended.2.1 (List.range 60) 1 35 0 (by decide)⟩

theorem socd_pairs_eval :
    get_keychron_analog_socd_pairs (profile_dev (List.range 104)) 0 0 socd_state 0 =
      some ((List.range 20).map fun i =>
          { type := 4 + 5 * i, row1 := 5 + 5 * i, col1 := 6 + 5 * i,
            row2 := 7 + 5 * i, col2 := 8 + 5 * i },
        [[KC_ANALOG_MATRIX, AMC_GET_PROFILE_RAW, 0, 0, 4, 0, 25],
         [KC_ANALOG_MATRIX, AMC_GET_PROFILE_RAW, 0, 0, 29, 0, 25],
         [KC_ANALOG_MATRIX, AMC_GET_PROFILE_RAW, 0, 0, 54, 0, 25],
         [KC_ANALOG_MATRIX, AMC_GET_PROFILE_RAW, 0, 0, 79, 0, 25]]) := by
  unfold get_keychron_analog_socd_pairs
  dsimp only [socd_state, init_keychron_attrs]
  rw [socd_chunks.eq_def]
  dsimp only
  rw [socd_chunks.eq_def]
  dsimp only
  rw [socd_chunks.eq_def]
  dsimp only
  rw [socd_chunks.eq_def]
  dsimp only
  rw [socd_chunks.eq_def]
  decide

/-- C5: reading `N ≥ 1` records issues exactly `⌈N / max_batch⌉` round-trips,
each advancing the start index by the previous batch size (round-trip `k`
starts at `start + 29 * k` for the 29-per-packet region list), and the
records come back in original index order; and reading the 20 five-byte SOCD
pairs with the 25-byte chunk budget issues exactly 4 round-trips at byte
offsets 4, 29, 54, 79 into the profile — record offsets 0, 5, 10, 15 of the
SOCD section. -/
theorem paginated_read_roundtrip_count :
    (∀ (stored : List Nat) (N start : Nat), 1 ≤ N →
      get_mixed_rgb_regions_loop (region_dev stored) start N =
        some ((List.range N).map (fun i => stored.getD (start + i) 0),
          (List.range ((N + 28) / 29)).map fun k =>
            [KC_KEYCHRON_RGB, MIXED_EFFECT_RGB_GET_REGIONS, start + 29 * k,
              min 29 (N - 29 * k)])) ∧
    get_keychron_analog_socd_pairs (profile_dev (List.range 104)) 0 0 socd_state 0 =
      some ((List.range 20).map fun i =>
          { type := 4 + 5 * i, row1 := 5 + 5 * i, col1 := 6 + 5 * i,
            row2 := 7 + 5 * i, col2 := 8 + 5 * i },
        [[KC_ANALOG_MATRIX, AMC_GET_PROFILE_RAW, 0, 0, 4, 0, 25],
         [KC_ANALOG_MATRIX, AMC_GET_PROFILE_RAW, 0, 0, 29, 0, 25],
         [KC_ANALOG_MATRIX, AMC_GET_PROFILE_RAW, 0, 0, 54, 0, 25],
         [KC_ANALOG_MATRIX, AMC_GET_PROFILE_RAW, 0, 0, 79, 0, 25]]) :=
  ⟨fun stored N start h => regions_loop_on_stored stored N start h, socd_pairs_eval⟩

/-- C5 witness: a 30-region read (30 is not a multiple of the batch size 29)
against a 60-LED device issues 2 round-trips, at start indices 0 and 29. -/
theorem paginated_read_roundtrip_count_witness :
    get_mixed_rgb_regions_loop (region_dev (List.range 60)) 0 30 =
      some ((List.range 30).map (fun i => (List.range 60).getD (0 + i) 0),
        (List.range ((30 + 28) / 29)).map fun k =>
          [KC_KEYCHRON_RGB, MIXED_EFFECT_RGB_GET_REGIONS, 0 + 29 * k,
            min 29 (30 - 29 * k)]) :=
  paginated_read_roundtrip_count.1 (List.range 60) 30 0 (by decide)

/-- C8 counterexample: with the primary mask clear and every misc bit set,
`has_keychron_rgb` and `has_keychron_analog` still return false — these two
predicates consult only the primary mask, so OR-across-masks does not hold
for them (contrast `has_keychron_debounce`, which is true in the same
state). -/
theorem or_across_masks_counterexample :
    has_keychron_rgb (flags_state 0 0xFFFF) = false ∧
    has_keychron_analog false (flags_state 0 0xFFFF) = false ∧
    has_keychron_debounce (flags_state 0 0xFFFF) = true := by
  decide

/-- C8 amended: OR-across-masks holds exactly for the four capabilities with
bits in both masks — debounce, NKRO, snap click, wireless: each predicate is
true whenever either mask bit is set, in particular with the primary bit
clear and the misc bit set.  Report rate is decided by the misc mask alone,
and RGB and analog (without the debug override) by the primary mask alone:
their predicates ignore the other mask, and with the relevant primary bit
clear RGB/analog are false whatever the misc mask. -/
theorem feature_mask_or_semantics (f m f2 m2 : Nat) :
    (m &&& MISC_DEBOUNCE ≠ 0 → has_keychron_debounce (flags_state f m) = true) ∧
    (f &&& FEATURE_DYNAMIC_DEBOUNCE ≠ 0 → has_keychron_debounce (flags_state f m) = true) ∧
    (m &&& MISC_NKRO ≠ 0 → has_keychron_nkro (flags_state f m) = true) ∧
    (f &&& FEATURE_NKRO ≠ 0 → has_keychron_nkro (flags_state f m) = true) ∧
    (m &&& MISC_SNAP_CLICK ≠ 0 → has_keychron_snap_click (flags_state f m) = true) ∧
    (f &&& FEATURE_SNAP_CLICK ≠ 0 → has_keychron_snap_click (flags_state f m) = true) ∧
    (m &&& MISC_WIRELESS_LPM ≠ 0 → has_keychron_wireless (flags_state f m) = true) ∧
    (f &&& (FEATURE_BLUETOOTH ||| FEATURE_P24G) ≠ 0 →
      has_keychron_wireless (flags_state f m) = true) ∧
    has_keychron_report_rate (flags_state f m) = has_keychron_report_rate (flags_state f2 m) ∧
    has_keychron_rgb (flags_state f m) = has_keychron_rgb (flags_state f m2) ∧
    has_keychron_analog false (flags_state f m) = has_keychron_analog false (flags_state f m2) ∧
    (f &&& FEATURE_KEYCHRON_RGB = 0 → has_keychron_rgb (flags_state f m) = false) ∧
    (f &&& FEATURE_ANALOG_MATRIX = 0 → has_keychron_analog false (flags_state f m) = false) := by
  refine ⟨fun h => ?_, fun h => ?_, fun h => ?_, fun h => ?_, fun h => ?_, fun h => ?_,
    fun h => ?_, fun h => ?_, rfl, rfl, rfl, fun h => ?_, fun h => ?_⟩ <;>
    simp [has_keychron_debounce, has_keychron_nkro, has_keychron_snap_click,
      has_keychron_wireless, has_keychron_rgb, has_keychron_analog, flags_state, h]

/-- C8 witness: the OR semantics at a concrete state — primary mask clear,
misc mask `MISC_DEBOUNCE`: the debounce predicate is true. -/
theorem feature_mask_or_semantics_witness :
    has_keychron_debounce (flags_state 0 MISC_DEBOUNCE) = true :=
  (feature_mask_or_semantics 0 MISC_DEBOUNCE 0 0).1 (by decide)

/-- C9 counterexample: `set_keychron_per_key_color` with a success response
but an index outside the mirror list returns `True` while leaving the mirror
untouched — the sent values `(1, 2, 3)` are nowhere in the mirror, so
"the in-memory mirror is updated to exactly the values sent" fails. -/
theorem per_key_color_out_of_range_counterexample :
    set_keychron_per_key_color ok_dev init_keychron_attrs 0 1 2 3 =
      some (init_keychron_attrs, true,
        [[KC_KEYCHRON_RGB, PER_KEY_RGB_SET_COLOR, 0, 1, 1, 2, 3]]) ∧
    init_keychron_attrs.keychron_per_key_colors = [] := by
  decide

/-- C9 amended: every single-item writer returns `True` exactly when the
response echoes both command bytes with status `KC_SUCCESS` and `False`
otherwise, never an exception, and on failure the mirror is untouched; on
success the scalar writers (debounce, NKRO, report rate, per-key RGB type)
set the mirror to exactly the values sent, while the list-slot writers
(per-key color, snap click) update the slot only when the index lies inside
the current mirror list — an out-of-range index returns `True` with the
mirror untouched. -/
theorem single_item_writer_contract :
    (∀ (dev : PDev) (s : KState) (dt tm : Nat) (r : Response),
      dev [KC_MISC_CMD_GROUP, DEBOUNCE_SET, dt, tm] = some r →
      (accepted r KC_MISC_CMD_GROUP DEBOUNCE_SET →
        set_keychron_debounce dev s dt tm =
          some ({ s with keychron_debounce_type := dt, keychron_debounce_time := tm },
            true, [[KC_MISC_CMD_GROUP, DEBOUNCE_SET, dt, tm]])) ∧
      (¬ accepted r KC_MISC_CMD_GROUP DEBOUNCE_SET →
        set_keychron_debounce dev s dt tm =
          some (s, false, [[KC_MISC_CMD_GROUP, DEBOUNCE_SET, dt, tm]]))) ∧
    (∀ (dev : PDev) (s : KState) (enabled : Bool) (r : Response),
      dev [KC_MISC_CMD_GROUP, NKRO_SET, if enabled then 1 else 0] = some r →
      (accepted r KC_MISC_CMD_GROUP NKRO_SET →
        set_keychron_nkro dev s enabled =
          some ({ s with keychron_nkro_enabled := enabled }, true,
            [[KC_MISC_CMD_GROUP, NKRO_SET, if enabled then 1 else 0]])) ∧
      (¬ accepted r KC_MISC_CMD_GROUP NKRO_SET →
        set_keychron_nkro dev s enabled =
          some (s, false, [[KC_MISC_CMD_GROUP, NKRO_SET, if enabled then 1 else 0]]))) ∧
    (∀ (dev : PDev) (s : KState) (rate : Nat) (r : Response),
      dev [KC_MISC_CMD_GROUP, REPORT_RATE_SET, rate] = some r →
      (accepted r KC_MISC_CMD_GROUP REPORT_RATE_SET →
        set_keychron_report_rate dev s rate =
          some ({ s with keychron_report_rate := rate }, true,
            [[KC_MISC_CMD_GROUP, REPORT_RATE_SET, rate]])) ∧
      (¬ accepted r KC_MISC_CMD_GROUP REPORT_RATE_SET →
        set_keychron_report_rate dev s rate =
          some (s, false, [[KC_MISC_CMD_GROUP, REPORT_RATE_SET, rate]]))) ∧
    (∀ (dev : PDev) (s : KState) (t : Nat) (r : Response),
      dev [KC_KEYCHRON_RGB, PER_KEY_RGB_SET_TYPE, t] = some r →
      (accepted r KC_KEYCHRON_RGB PER_KEY_RGB_SET_TYPE →
        set_keychron_per_key_rgb_type dev s t =
          some ({ s with keychron_per_key_rgb_type := t }, true,
            [[KC_KEYCHRON_RGB, PER_KEY_RGB_SET_TYPE, t]])) ∧
      (¬ accepted r KC_KEYCHRON_RGB PER_KEY_RGB_SET_TYPE →
        set_keychron_per_key_rgb_type dev s t =
          some (s, false, [[KC_KEYCHRON_RGB, PER_KEY_RGB_SET_TYPE, t]]))) ∧
    (∀ (dev : PDev) (s : KState) (index hue sat val : Nat) (r : Response),
      dev [KC_KEYCHRON_RGB, PER_KEY_RGB_SET_COLOR, index, 1, hue, sat, val] = some r →
      (accepted r KC_KEYCHRON_RGB PER_KEY_RGB_SET_COLOR →
        index < s.keychron_per_key_colors.length →
        set_keychron_per_key_color dev s index hue sat val =
          some ({ s with keychron_per_key_colors :=
                           s.keychron_per_key_colors.set index (hue, sat, val) }, true,
            [[KC_KEYCHRON_RGB, PER_KEY_RGB_SET_COLOR, index, 1, hue, sat, val]])) ∧
      (accepted r KC_KEYCHRON_RGB PER_KEY_RGB_SET_COLOR →
        s.keychron_per_key_colors.length ≤ index →
        set_keychron_per_key_color dev s index hue sat val =
          some (s, true,
            [[KC_KEYCHRON_RGB, PER_KEY_RGB_SET_COLOR, index, 1, hue, sat, val]])) ∧
      (¬ accepted r KC_KEYCHRON_RGB PER_KEY_RGB_SET_COLOR →
        set_keychron_per_key_color dev s index hue sat val =
          some (s, false,
            [[KC_KEYCHRON_RGB, PER_KEY_RGB_SET_COLOR, index, 1, hue, sat, val]]))) ∧
    (∀ (dev : PDev) (s : KState) (index st k1 k2 : Nat) (r : Response),
      dev [KC_MISC_CMD_GROUP, SNAP_CLICK_SET, index, 1, st, k1, k2] = some r →
      (accepted r KC_MISC_CMD_GROUP SNAP_CLICK_SET →
        index < s.keychron_snap_click_entries.length →
        set_keychron_snap_click dev s index st k1 k2 =
          some ({ s with keychron_snap_click_entries :=
                           s.keychron_snap_click_entries.set index
                             { type := st, key1 := k1, key2 := k2 } }, true,
            [[KC_MISC_CMD_GROUP, SNAP_CLICK_SET, index, 1, st, k1, k2]])) ∧
      (accepted r KC_MISC_CMD_GROUP SNAP_CLICK_SET →
        s.keychron_snap_click_entries.length ≤ index →
        set_keychron_snap_click dev s index st k1 k2 =
          some (s, true, [[KC_MISC_CMD_GROUP, SNAP_CLICK_SET, index, 1, st, k1, k2]])) ∧
      (¬ accepted r KC_MISC_CMD_GROUP SNAP_CLICK_SET →
        set_keychron_snap_click dev s index st k1 k2 =
          some (s, false, [[KC_MISC_CMD_GROUP, SNAP_CLICK_SET, index, 1, st, k1, k2]]))) := by
  refine ⟨?_, ?_, ?_, ?_, ?_, ?_⟩
  · intro dev s dt tm r hdev
    refine ⟨fun hacc => ?_, fun hrej => ?_⟩ <;>
        simp only [set_keychron_debounce, hdev, Option.bind_eq_bind, Option.some_bind]
    · rw [if_pos hacc]
    · rw [if_neg hrej]
  · intro dev s enabled r hdev
    refine ⟨fun hacc => ?_, fun hrej => ?_⟩ <;>
        simp only [set_keychron_nkro, hdev, Option.bind_eq_bind, Option.some_bind]
    · rw [if_pos hacc]
    · rw [if_neg hrej]
  · intro dev s rate r hdev
    refine ⟨fun hacc => ?_, fun hrej => ?_⟩ <;>
        simp only [set_keychron_report_rate, hdev, Option.bind_eq_bind, Option.some_bind]
    · rw [if_pos hacc]
    · rw [if_neg hrej]
  · intro dev s t r hdev
    refine ⟨fun hacc => ?_, fun hrej => ?_⟩ <;>
        simp only [set_keychron_per_key_rgb_type, hdev, Option.bind_eq_bind,
          Option.some_bind]
    · rw [if_pos hacc]
    · rw [if_neg hrej]
  · intro dev s index hue sat val r hdev
    refine ⟨fun hacc hidx => ?_, fun hacc hidx => ?_, fun hrej => ?_⟩ <;>
        simp only [set_keychron_per_key_color, hdev, Option.bind_eq_bind, Option.some_bind]
    · rw [if_pos hacc, if_pos hidx]
    · rw [if_pos hacc, if_neg (by omega)]
    · rw [if_neg hrej]
  · intro dev s index st k1 k2 r hdev
    refine ⟨fun hacc hidx => ?_, fun hacc hidx => ?_, fun hrej => ?_⟩ <;>
        simp only [set_keychron_snap_click, hdev, Option.bind_eq_bind, Option.some_bind]
    · rw [if_pos hacc, if_pos hidx]
    · rw [if_pos hacc, if_neg (by omega)]
    · rw [if_neg hrej]

/-- C9 witness: the debounce writer at a success response updates the mirror
and returns `True`; at a rejecting response it leaves the mirror untouched
and returns `False`. -/
theorem single_item_writer_contract_witness :
    set_keychron_debounce ok_dev init_keychron_attrs 5 15 =
      some ({ init_keychron_attrs with keychron_debounce_type := 5,
                                       keychron_debounce_time := 15 }, true,
        [[KC_MISC_CMD_GROUP, DEBOUNCE_SET, 5, 15]]) ∧
    set_keychron_debounce reject_dev init_keychron_attrs 5 15 =
      some (init_keychron_attrs, false, [[KC_MISC_CMD_GROUP, DEBOUNCE_SET, 5, 15]]) :=
  ⟨(single_item_writer_contract.1 ok_dev init_keychron_attrs 5 15 _ rfl).1 (by decide),
   (single_item_writer_contract.1 reject_dev init_keychron_attrs 5 15 _ rfl).2 (by decide)⟩

/-- C10: the wireless low-power writer transmits the clamped values
`max 5 backlit_time` and `max 60 idle_time` (the two little-endian 16-bit
fields of the single request reassemble to exactly those values, never the
caller's raw arguments), and on success stores those clamped values in the
mirror; on rejection the mirror is untouched and the writer returns
`False`. -/
theorem wireless_lpm_clamps (dev : PDev) (s : KState) (b i : Nat) (r : Response)
    (hb : b < 65536) (hi : i < 65536)
    (hdev : dev [KC_MISC_CMD_GROUP, WIRELESS_LPM_SET, max 5 b % 256, max 5 b / 256,
      max 60 i % 256, max 60 i / 256] = some r) :
    (max 5 b % 256 + 256 * (max 5 b / 256) = max 5 b ∧
      max 5 b % 256 < 256 ∧ max 5 b / 256 < 256 ∧
      max 60 i % 256 + 256 * (max 60 i / 256) = max 60 i ∧
      max 60 i % 256 < 256 ∧ max 60 i / 256 < 256) ∧
    (accepted r KC_MISC_CMD_GROUP WIRELESS_LPM_SET →
      set_keychron_wireless_lpm dev s b i =
        some ({ s with keychron_wireless_backlit_time := max 5 b,
                       keychron_wireless_idle_time := max 60 i }, true,
          [[KC_MISC_CMD_GROUP, WIRELESS_LPM_SET, max 5 b % 256, max 5 b / 256,
            max 60 i % 256, max 60 i / 256]])) ∧
    (¬ accepted r KC_MISC_CMD_GROUP WIRELESS_LPM_SET →
      set_keychron_wireless_lpm dev s b i =
        some (s, false,
          [[KC_MISC_CMD_GROUP, WIRELESS_LPM_SET, max 5 b % 256, max 5 b / 256,
            max 60 i % 256, max 60 i / 256]])) := by
  refine ⟨by omega, fun hacc => ?_, fun hrej => ?_⟩ <;>
    · simp only [set_keychron_wireless_lpm, hdev, Option.bind_eq_bind, Option.some_bind]
      first
        | rw [if_pos hacc]
        | rw [if_neg hrej]

/-- C10 witness: calling with `backlit_time = 0, idle_time = 0` transmits and
stores the clamped `5` and `60` — the mirror differs from the caller's
arguments after a successful call. -/
theorem wireless_lpm_clamps_witness :
    set_keychron_wireless_lpm ok_dev init_keychron_attrs 0 0 =
      some ({ init_keychron_attrs with keychron_wireless_backlit_time := max 5 0,
                                       keychron_wireless_idle_time := max 60 0 }, true,
        [[KC_MISC_CMD_GROUP, WIRELESS_LPM_SET, max 5 0 % 256, max 5 0 / 256,
          max 60 0 % 256, max 60 0 / 256]]) ∧
    (max 5 0 ≠ 0 ∧ max 60 0 ≠ 0) :=
  ⟨(wireless_lpm_clamps ok_dev init_keychron_attrs 0 0 _ (by decide) (by decide)
      rfl).2.1 (by decide),
   by decide⟩

/-- C6 counterexample: with the `DEBUG_FORCE_HE` environment override set,
negotiating against a device that answers the version query with the `0xFF`
sentinel still returns the empty feature mask after a single query — but the
`has_keychron_analog` feature predicate is nevertheless true, so "all
feature predicates false" fails. -/
theorem sentinel_analog_override_counterexample :
    reload_keychron true 0 0 reject_dev =
      some (init_keychron_attrs, [[KC_GET_PROTOCOL_VERSION]]) ∧
    init_keychron_attrs.keychron_features = 0 ∧
    has_keychron_analog true init_keychron_attrs = true := by
  decide

/-- C6 amended: if the response to the initial protocol-version query has
leading byte `0xFF`, negotiation returns with `keychron_features = 0` and
every other attribute at its default, having issued exactly that one query
and no further ones; every feature predicate on the resulting state is then
false, provided the `DEBUG_FORCE_HE` override is not set (with the override
set, `has_keychron_analog` returns true regardless of the mask). -/
theorem protocol_absent_sentinel (debug_force_he : Bool) (rows cols : Nat)
    (dev : PDev) (r : Response)
    (hdev : dev [KC_GET_PROTOCOL_VERSION] = some r) (hff : r 0 = 0xFF) :
    reload_keychron debug_force_he rows cols dev =
      some (init_keychron_attrs, [[KC_GET_PROTOCOL_VERSION]]) ∧
    has_keychron_debounce init_keychron_attrs = false ∧
    has_keychron_nkro init_keychron_attrs = false ∧
    has_keychron_report_rate init_keychron_attrs = false ∧
    has_keychron_snap_click init_keychron_attrs = false ∧
    has_keychron_wireless init_keychron_attrs = false ∧
    has_keychron_rgb init_keychron_attrs = false ∧
    has_keychron_analog false init_keychron_attrs = false := by
  refine ⟨?_, by decide, by decide, by decide, by decide, by decide, by decide, by decide⟩
  simp only [reload_keychron, hdev]
  rw [if_pos hff]
  rfl

/-- C6 witness: the sentinel path at the concrete all-`0xFF` device. -/
theorem protocol_absent_sentinel_witness :
    reload_keychron false 0 0 reject_dev =
      some (init_keychron_attrs, [[KC_GET_PROTOCOL_VERSION]]) ∧
    has_keychron_rgb init_keychron_attrs = false :=
  ⟨(protocol_absent_sentinel false 0 0 reject_dev (fun _ => 0xFF) rfl rfl).1,
   (protocol_absent_sentinel false 0 0 reject_dev (fun _ => 0xFF) rfl rfl).2.2.2.2.2.2.1⟩

/-- C7 counterexample: a transport failure on the initial protocol-version
query (every `usb_send` raising) produces *exactly the same outcome* as a
device that answers with the unsupported sentinel — a normal return with the
empty feature mask.  The two cases are indistinguishable to the caller, so
no connectivity error distinguishable from feature absence is raised. -/
theorem transport_failure_indistinguishable_counterexample :
    reload_keychron false 0 0 dead_dev = reload_keychron false 0 0 reject_dev := by
  decide

/-- C7 amended: a transport failure (exception) on the *initial*
protocol-version query is swallowed by the `try/except` and yields the same
empty-mask normal return as protocol absence — callers cannot tell the two
apart; only a transport failure on a *later* negotiation query (here the
feature-mask query) escapes as a hard error. -/
theorem transport_failure_negotiation (dev : PDev) :
    (dev [KC_GET_PROTOCOL_VERSION] = none →
      reload_keychron false 0 0 dev =
        some (init_keychron_attrs, [[KC_GET_PROTOCOL_VERSION]])) ∧
    (∀ r : Response, dev [KC_GET_PROTOCOL_VERSION] = some r → r 0 ≠ 0xFF →
      dev [KC_GET_SUPPORT_FEATURE] = none →
      reload_keychron false 0 0 dev = none) := by
  constructor
  · intro h
    simp only [reload_keychron, h]
    rfl
  · intro r h hne h2
    unfold reload_keychron
    dsimp only
    rw [h]
    dsimp only
    rw [if_neg hne, h2]
    rfl

/-- C7 witness: the swallowed initial failure at `dead_dev`, and the
propagated later failure at `half_dev`. -/
theorem transport_failure_negotiation_witness :
    reload_keychron false 0 0 dead_dev =
      some (init_keychron_attrs, [[KC_GET_PROTOCOL_VERSION]]) ∧
    reload_keychron false 0 0 half_dev = none :=
  ⟨(transport_failure_negotiation dead_dev).1 rfl,
   (transport_failure_negotiation half_dev).2 (fun _ => 0) rfl (by decide) rfl⟩

end Keychron
